import Mathlib

/-!
Verification of the lab-report analysis core of the AI-driven clinical
decision support platform.

The Python modules under `backend/extraction-service/` are shallowly
embedded here:

* `parsers/gemini_structurer.py` (module-level helpers and
  `validate_and_correct_lab_results`)            → namespace `Gemini`
* `parsers/structured_parser.py`                 → namespace `StructuredParser`
* `parsers/lab_parser.py` (`_merge_results`)     → namespace `LabParser`
* `analyzers/risk_analyzer.py` + `utils/reference_ranges.py`
                                                 → namespace `RiskAnalyzer`

Modelling conventions:
* Python strings are `List Char` (named `Str`); `upper`/`lower` are modelled
  on the ASCII range, which covers every string the analysed code compares.
* Python floats are modelled as exact rationals `ℚ`.
* Python `float(s)` on the digit/dot substrings produced by the regexes
  `[\d.]+` and `\d+\.?\d*` is modelled exactly (including its `ValueError`
  on runs with more than one dot); the callers below only ever apply it to
  such substrings.
* A Python function that can raise returns `Except PyErr _`; `try/except`
  blocks are translated to matches on that result.
* Purely cosmetic output (alert message/recommendation templates, the
  free-text summary, and the `int`-vs-`float` distinction in Python's
  `str()` rendering of numbers) is not load-bearing for any analysed
  behaviour and is rendered by a simplified `fmtNum`.
-/

/-- Python strings, as lists of characters. -/
abbrev Str := List Char

/-- Shorthand: turn a Lean string literal into the `Str` model. -/
def S (s : String) : Str := s.toList

/-- Shorthand for large rational constants, built through the integer cast
(whose evaluation is efficient, unlike large `ℚ` numerals). -/
def Q (n : ℤ) : ℚ := (n : ℚ)

/-- Equality of rationals decided through the numerator/denominator pair;
unlike the default instance this evaluates efficiently on large values. -/
instance (priority := 2000) ratDecEqNumDen : DecidableEq ℚ := fun a b =>
  decidable_of_iff (a.num = b.num ∧ a.den = b.den)
    ⟨fun h => Rat.ext h.1 h.2, fun h => ⟨congrArg Rat.num h, congrArg Rat.den h⟩⟩

/-- Python `ValueError` (the only exception raised by the embedded code). -/
inductive PyErr where
  | valueError
deriving DecidableEq, Repr

deriving instance DecidableEq for Except

/-- Whitespace, as recognised by Python's `str.strip` / regex `\s`. -/
def isSpaceC (c : Char) : Bool :=
  c == ' ' || c == '\t' || c == '\n' || c == '\r' || c == '\x0b' || c == '\x0c'

/-- `str.upper`, ASCII range. -/
def upperS (s : Str) : Str := s.map Char.toUpper

/-- `str.lower`, ASCII range. -/
def lowerS (s : Str) : Str := s.map Char.toLower

/-- `str.strip()`. -/
def stripS (s : Str) : Str :=
  ((s.dropWhile isSpaceC).reverse.dropWhile isSpaceC).reverse

/-- Python `needle in hay` substring test. -/
def containsSub (needle : Str) : Str → Bool
  | [] => needle.isEmpty
  | c :: t => needle.isPrefixOf (c :: t) || containsSub needle t

/-- Characters matched by the regex class `[\d.]`. -/
def isNumC (c : Char) : Bool := c.isDigit || c == '.'

/-- Numeric value of a digit string (0 for the empty string). -/
def digitsVal (s : Str) : ℕ :=
  s.foldl (fun a c => a * 10 + (c.toNat - '0'.toNat)) 0

/-- Python `float` on a run drawn from `[\d.]+`: succeeds iff the run has at
least one digit and at most one dot (`"1.2"`, `".5"`, `"7."` parse; `"."`
and `"1.2.3"` raise `ValueError`). -/
def pyFloatOfRun (s : Str) : Option ℚ :=
  if s.all isNumC && s.any Char.isDigit && s.countP (· == '.') ≤ 1 then
    let ip := s.takeWhile Char.isDigit
    let fp := (s.dropWhile Char.isDigit).drop 1
    some ((digitsVal ip : ℚ) + (digitsVal fp : ℚ) / (10 : ℚ) ^ fp.length)
  else
    none

/-- `re.search(r'[\d.]+', s)`: the first maximal run of digits/dots. -/
def firstRun (s : Str) : Option Str :=
  let t := s.dropWhile (fun c => !isNumC c)
  if t.isEmpty then none else some (t.takeWhile isNumC)

/-- One attempt of `([\d.]+)\s*[-–]\s*([\d.]+)` anchored at the head of `s`
(backtracking inside the first group can never help, because every character
it gives back is a digit or dot, which matches neither `\s` nor the dash). -/
def rangeTryHere (s : Str) : Option (Str × Str) :=
  let r1 := s.takeWhile isNumC
  if r1.isEmpty then none
  else
    match (s.drop r1.length).dropWhile isSpaceC with
    | [] => none
    | d :: rest =>
      if d == '-' || d == '–' then
        let r2 := (rest.dropWhile isSpaceC).takeWhile isNumC
        if r2.isEmpty then none else some (r1, r2)
      else none

/-- `re.search(r'([\d.]+)\s*[-–]\s*([\d.]+)', s)`: leftmost match. -/
def rangeSearch : Str → Option (Str × Str)
  | [] => none
  | c :: t =>
    match rangeTryHere (c :: t) with
    | some p => some p
    | none => rangeSearch t

namespace Gemini

/-! ## `parsers/gemini_structurer.py`, module-level helpers -/

/-- One entry of `STANDARD_REFERENCE_RANGES`: `{min, max, unit, section}`
plus the optional `male`/`female` sub-ranges and the `qualitative` /
`force_unitless` flags. -/
structure StdEntry where
  min : ℚ
  max : ℚ
  unit : Str
  sect : Str
  male : Option (ℚ × ℚ)
  female : Option (ℚ × ℚ)
  qualitative : Bool
  force_unitless : Bool
deriving DecidableEq, Repr

/-- Abbreviation for the plain catalog rows (no sex ranges, no flags). -/
def E (mn mx : ℚ) (u sec : String) : StdEntry :=
  ⟨mn, mx, S u, S sec, none, none, false, false⟩

/-- `STANDARD_REFERENCE_RANGES` from `gemini_structurer.py`, in source
(insertion) order — the order matters for the partial-match fallback of
`_find_standard_range`. -/
def STANDARD_REFERENCE_RANGES : List (Str × StdEntry) := [
  (S "HEMOGLOBIN", E 12 17 "g/dL" "hematology"),
  (S "HB", E 12 17 "g/dL" "hematology"),
  (S "RBC COUNT", E 4 6 "million/µL" "hematology"),
  (S "RBC", E 4 6 "million/µL" "hematology"),
  (S "TOTAL RBC COUNT", E 4 6 "million/µL" "hematology"),
  (S "WBC COUNT", E (Q 4000) (Q 11000) "/µL" "hematology"),
  (S "WBC", E (Q 4000) (Q 11000) "/µL" "hematology"),
  (S "TLC", E (Q 4000) (Q 11000) "/µL" "hematology"),
  (S "PLATELET COUNT", E (Q 150000) (Q 400000) "/µL" "hematology"),
  (S "PLATELETS", E (Q 150000) (Q 400000) "/µL" "hematology"),
  (S "NEUTROPHILS", E 40 70 "%" "hematology"),
  (S "LYMPHOCYTES", E 20 40 "%" "hematology"),
  (S "MONOCYTES", E 2 8 "%" "hematology"),
  (S "EOSINOPHILS", E 1 6 "%" "hematology"),
  (S "BASOPHILS", E 0 1 "%" "hematology"),
  (S "ESR", E 0 20 "mm/hr" "hematology"),
  (S "HEMATOCRIT", E 36 52 "%" "hematology"),
  (S "PCV", E 36 52 "%" "hematology"),
  (S "MCV", E 80 100 "fL" "hematology"),
  (S "MCH", E 27 33 "pg" "hematology"),
  (S "MCHC", E 32 36 "g/dL" "hematology"),
  (S "ALBUMIN", E (7/2) 5 "g/dL" "biochemistry"),
  (S "GLOBULIN", E 2 (7/2) "g/dL" "biochemistry"),
  (S "A/G RATIO", ⟨1, 5/2, S "", S "biochemistry", none, none, false, true⟩),
  (S "ALBUMIN/GLOBULIN RATIO", ⟨1, 5/2, S "", S "biochemistry", none, none, false, true⟩),
  (S "ALBUMIN / GLOBULIN RATIO", ⟨1, 5/2, S "", S "biochemistry", none, none, false, true⟩),
  (S "ALUBUMIN / GLOBULIN RATIO", ⟨1, 5/2, S "", S "biochemistry", none, none, false, true⟩),
  (S "AG RATIO", ⟨1, 5/2, S "", S "biochemistry", none, none, false, true⟩),
  (S "TOTAL PROTEIN", E 6 8 "g/dL" "biochemistry"),
  (S "CREATININE", E (3/5) (6/5) "mg/dL" "biochemistry"),
  (S "BLOOD UREA", E 15 40 "mg/dL" "biochemistry"),
  (S "BUN", E 7 20 "mg/dL" "biochemistry"),
  (S "UREA", E 15 40 "mg/dL" "biochemistry"),
  (S "EGFR", E 60 (Q 999) "mL/min" "biochemistry"),
  (S "GFR", E 60 (Q 999) "mL/min" "biochemistry"),
  (S "URIC ACID", E (7/2) (36/5) "mg/dL" "biochemistry"),
  (S "SGOT", E 0 40 "U/L" "biochemistry"),
  (S "AST", E 0 40 "U/L" "biochemistry"),
  (S "SGPT", E 0 40 "U/L" "biochemistry"),
  (S "ALT", E 0 40 "U/L" "biochemistry"),
  (S "BILIRUBIN TOTAL", E (1/10) (6/5) "mg/dL" "biochemistry"),
  (S "BILIRUBIN DIRECT", E 0 (3/10) "mg/dL" "biochemistry"),
  (S "ALKALINE PHOSPHATASE", E 44 147 "U/L" "biochemistry"),
  (S "ALP", E 44 147 "U/L" "biochemistry"),
  (S "FASTING BLOOD SUGAR", E 70 100 "mg/dL" "diabetes"),
  (S "FBS", E 70 100 "mg/dL" "diabetes"),
  (S "FASTING GLUCOSE", E 70 100 "mg/dL" "diabetes"),
  (S "PP BLOOD SUGAR", E 70 140 "mg/dL" "diabetes"),
  (S "PPBS", E 70 140 "mg/dL" "diabetes"),
  (S "RANDOM BLOOD SUGAR", E 70 140 "mg/dL" "diabetes"),
  (S "RBS", E 70 140 "mg/dL" "diabetes"),
  (S "HBA1C", E 4 (28/5) "%" "diabetes"),
  (S "TOTAL CHOLESTEROL", E 0 200 "mg/dL" "lipid_profile"),
  (S "CHOLESTEROL", E 0 200 "mg/dL" "lipid_profile"),
  (S "TRIGLYCERIDES", E 0 150 "mg/dL" "lipid_profile"),
  (S "HDL CHOLESTEROL", E 40 60 "mg/dL" "lipid_profile"),
  (S "HDL", E 40 60 "mg/dL" "lipid_profile"),
  (S "LDL CHOLESTEROL", E 0 100 "mg/dL" "lipid_profile"),
  (S "LDL", E 0 100 "mg/dL" "lipid_profile"),
  (S "VLDL", E 0 30 "mg/dL" "lipid_profile"),
  (S "TSH", E (2/5) 4 "µIU/mL" "thyroid"),
  (S "T3", E 80 200 "ng/dL" "thyroid"),
  (S "T4", E 5 12 "µg/dL" "thyroid"),
  (S "FREE T3", E (23/10) (21/5) "pg/mL" "thyroid"),
  (S "FREE T4", E (4/5) (9/5) "ng/dL" "thyroid"),
  (S "SPECIFIC GRAVITY", E (201/200) (103/100) "" "urine_analysis"),
  (S "URINE SPECIFIC GRAVITY", E (201/200) (103/100) "" "urine_analysis"),
  (S "URINE PH", E (9/2) 8 "" "urine_analysis"),
  (S "PH", E (9/2) 8 "" "urine_analysis"),
  (S "URINE RBC", E 0 2 "/HPF" "urine_analysis"),
  (S "RBC (URINE)", E 0 2 "/HPF" "urine_analysis"),
  (S "URINE WBC", ⟨0, 5, S "/HPF", S "urine_analysis", some (0, 4), some (3, 7), false, false⟩),
  (S "WBC (URINE)", ⟨0, 5, S "/HPF", S "urine_analysis", some (0, 4), some (3, 7), false, false⟩),
  (S "PUS CELLS", ⟨0, 5, S "/HPF", S "urine_analysis", some (0, 4), some (3, 7), false, false⟩),
  (S "EPITHELIAL CELLS", E 0 5 "/HPF" "urine_analysis"),
  (S "LEUCOCYTE ESTERASE", ⟨0, 0, S "", S "urine_analysis", none, none, true, false⟩),
  (S "URINE PROTEIN", ⟨0, 0, S "", S "urine_analysis", none, none, true, false⟩),
  (S "URINE GLUCOSE", ⟨0, 0, S "", S "urine_analysis", none, none, true, false⟩)]

/-- `_normalize_test_name`: upper-case, strip, then peel the qualitative
prefixes in order (each one applied to the running result). -/
def normalize_test_name (name : Str) : Str :=
  [S "NIL", S "ABSENT", S "PRESENT", S "POSITIVE", S "NEGATIVE", S "TRACE"].foldl
    (fun n p =>
      if (p ++ [' ']).isPrefixOf n then stripS (n.drop p.length) else n)
    (stripS (upperS name))

/-- The per-entry test of `_find_standard_range`'s partial-match loop. -/
def partialMatches (normalized key : Str) : Bool :=
  containsSub key normalized || containsSub normalized key ||
    normalized.filter (· != ' ') == key.filter (· != ' ')

/-- `_find_standard_range`: direct dictionary hit first, then the first
catalog entry (in insertion order) that partially matches. -/
def find_standard_range (test_name : Str) : Option StdEntry :=
  match STANDARD_REFERENCE_RANGES.lookup (normalize_test_name test_name) with
  | some e => some e
  | none =>
    (STANDARD_REFERENCE_RANGES.find?
      (fun kv => partialMatches (normalize_test_name test_name) kv.1)).map (·.2)

/-- `_parse_numeric_value`: `Nil`, `Absent`, `Negative`, `None`, `-` ↦ 0, strip commas,
take the first `[\d.]+` run, `float` it with `ValueError` caught to `None`. -/
def parse_numeric_value (value : Str) : Option ℚ :=
  let vs := stripS value
  if upperS vs ∈ [S "NIL", S "ABSENT", S "NEGATIVE", S "NONE", S "-"] then
    some 0
  else
    match firstRun (vs.filter (· != ',')) with
    | none => none
    | some run => pyFloatOfRun run

/-- `_parse_reference_range`. The `"> X"` and `"< X"` branches call `float`
*outside* any `try`, so a malformed run there (e.g. `"> 1.2.3"`) raises
`ValueError`; only the `"X - Y"` branch catches it (to `(None, None)`). -/
def parse_reference_range (ref_range : Str) : Except PyErr (Option ℚ × Option ℚ) :=
  if ref_range.isEmpty || ref_range == S "-" || ref_range == S "N/A" then
    .ok (none, none)
  else
    let r := stripS ref_range
    let rc := r.filter (· != ',')
    match if (S ">").isPrefixOf rc then firstRun rc else none with
    | some run =>
      match pyFloatOfRun run with
      | some x => .ok (some x, some (Q 999999))
      | none => .error .valueError
    | none =>
      match if (S "<").isPrefixOf rc then firstRun rc else none with
      | some run =>
        match pyFloatOfRun run with
        | some x => .ok (some 0, some x)
        | none => .error .valueError
      | none =>
        match rangeSearch rc with
        | some (a, b) =>
          match pyFloatOfRun a, pyFloatOfRun b with
          | some x, some y => .ok (some x, some y)
          | _, _ => .ok (none, none)
        | none => .ok (none, none)

/-- `_is_lakhs_unit`. -/
def is_lakhs_unit (unit : Str) : Bool :=
  if unit.isEmpty then false
  else containsSub (S "lakh") (lowerS unit) || containsSub (S "lac") (lowerS unit)

/-- `_should_skip_standard_range` (its `test_name` argument is unused in the
source as well). -/
def should_skip_standard_range (_test_name unit : Str) (std_range : Option StdEntry) : Bool :=
  match std_range with
  | none => false
  | some e =>
    if unit.isEmpty then false
    else if is_lakhs_unit unit then decide (e.min > 100)
    else false

/-- `_calculate_status`. -/
def calculate_status (value : ℚ) (min_val max_val : Option ℚ) : Str :=
  match min_val, max_val with
  | some mn, some mx =>
    if value < mn then S "LOW" else if value > mx then S "HIGH" else S "NORMAL"
  | _, _ => S "NORMAL"

/-! ## `validate_and_correct_lab_results` -/

/-- Decimal digits of a natural number. -/
def natDigits (n : ℕ) : Str := Nat.toDigits 10 n

/-- Display rendering of a catalog number (see the module comment: the
Python `int`-vs-`float` `str()` distinction is not modelled; every number
rendered by the embedded code is a non-negative terminating decimal). -/
def fmtNum (q : ℚ) : Str :=
  if q.den = 1 then natDigits q.num.natAbs
  else
    let k := ((List.range 12).find? (fun k => (q * 10 ^ k).den = 1)).getD 0
    let scaled := (q * 10 ^ k).num.natAbs
    natDigits (scaled / 10 ^ k) ++ ['.'] ++
      (List.replicate (k - (natDigits (scaled % 10 ^ k)).length) '0' ++
        natDigits (scaled % 10 ^ k))

/-- `str.capitalize()`. -/
def capitalizeS : Str → Str
  | [] => []
  | c :: t => c.toUpper :: t.map Char.toLower

/-- The slice of `patient_info` read by `validate_and_correct_lab_results`:
the `sex` and `gender` keys (absent keys modelled as `""`, the `.get`
default). -/
structure PatInfo where
  sex : Str
  gender : Str
deriving DecidableEq, Repr

/-- The patient-sex normalisation at the top of
`validate_and_correct_lab_results`: `sex or gender`, lower-cased and
stripped, mapped onto `"female"`/`"male"`/none. -/
def patientSexOf (patient_info : Option PatInfo) : Option Str :=
  match patient_info with
  | none => none
  | some p =>
    let sx := if p.sex.isEmpty then p.gender else p.sex
    if sx.isEmpty then none
    else
      let s := stripS (lowerS sx)
      if s == S "female" || s == S "f" then some (S "female")
      else if s == S "male" || s == S "m" then some (S "male")
      else none

/-- An input element of `lab_tests`: the dictionary keys the function reads.
`status` and `section` keep their missing-vs-present distinction because the
source reads them with two different `.get` defaults. -/
structure TestIn where
  test_name : Str
  value : Str
  unit : Str
  reference_range : Str
  status : Option Str
  sect : Option Str
deriving DecidableEq, Repr

/-- An output element of `corrected_tests`, with every key the source
writes. -/
structure TestOut where
  test_name : Str
  value : Str
  numeric_value : Option ℚ
  unit : Str
  reference_range : Str
  status : Str
  sect : Str
deriving DecidableEq, Repr

/-- The `suspicious_zero_tests` list. -/
def suspicious_zero_tests : List Str :=
  [S "ALBUMIN", S "TOTAL PROTEIN", S "HEMOGLOBIN", S "RBC COUNT", S "CREATININE"]

/-- The sensitivity-value spellings recognised by the culture/sensitivity
special case. -/
def sensitivityValues : List Str :=
  [S "SENSITIVE", S "RESISTANT", S "MODERATELY SENSITIVE", S "INTERMEDIATE",
   S "S", S "R", S "MS", S "I"]

/-- The antibiotic keywords of the culture/sensitivity special case. -/
def antibioticKeywords : List Str :=
  [S "AMIKACIN", S "IMIPENEM", S "PIPERACILLIN", S "MEROPENEM",
   S "CIPROFLOXACIN", S "LEVOFLOXACIN", S "AMOXYCLAV", S "CEFEPIME",
   S "CEFTRIAXONE", S "NETILLIN", S "CEPHATAXIME", S "MOXIFLOXACIN",
   S "TETRACYCLIN", S "AZITHROMYCIN", S "DOXYCYCLINE", S "SPARFLOXACIN",
   S "OFLOXACIN", S "CLARITHROMYCIN", S "NITROFURANTOIN", S "NEOMYCIN",
   S "GENTAMICIN", S "TOBRAMYCIN", S "VANCOMYCIN", S "PENICILLIN",
   S "AMPICILLIN", S "COTRIMOXAZOLE"]

/-- The sex-specific sub-range of a catalog entry (`patient_sex in
std_range` plus the bounds lookup). -/
def sexRangeOf (e : StdEntry) (ps : Str) : Option (ℚ × ℚ) :=
  if ps == S "male" then e.male else if ps == S "female" then e.female else none

/-- The `is_sensitivity_test` condition of the culture/sensitivity special
case, over the lower-cased section, upper-stripped value and upper-cased
test name. -/
def isSensitivityFlag (sect_lower value_upper upper_name : Str) : Bool :=
  sect_lower == S "culture_sensitivity" ||
  value_upper ∈ sensitivityValues ||
  antibioticKeywords.any (fun k => containsSub k upper_name)

/-- The guard of the force-unitless special branch: the catalog entry, when
it exists and carries `force_unitless`. -/
def unitlessSel (std : Option StdEntry) : Option StdEntry :=
  if (std.map (·.force_unitless)).getD false then std else none

/-- The guard of the sex-specific special branch: the catalog entry and its
sex sub-range, when both exist for the known patient sex. -/
def genderSel (std : Option StdEntry) (ps : Option Str) : Option (StdEntry × (ℚ × ℚ)) :=
  match std, ps with
  | some e, some p => (sexRangeOf e p).map (fun gr => (e, gr))
  | _, _ => none

/-- The culture/sensitivity record constructed by the special branch. -/
def sensitivityOut (test_name : Str) (value : Str) (status0 : Str) : TestOut :=
  let value_upper := stripS (upperS value)
  let sv :=
    if value_upper == S "S" || value_upper == S "SENSITIVE" then
      (S "Sensitive", S "NORMAL")
    else if value_upper == S "R" || value_upper == S "RESISTANT" then
      (S "Resistant", S "HIGH")
    else if value_upper ∈ [S "MS", S "MODERATELY SENSITIVE", S "INTERMEDIATE", S "I"] then
      (S "Moderately Sensitive", S "BORDERLINE")
    else (value, status0)
  ⟨test_name, sv.1, none, [], S "Sensitive", sv.2, S "culture_sensitivity"⟩

/-- The `corrected` dictionary as first assembled by the loop body of
`validate_and_correct_lab_results`, before any range handling. -/
def correctedBase (test : TestIn) (test_name : Str) (numeric_value : Option ℚ) : TestOut :=
  ⟨test_name, if test.value.isEmpty then [] else test.value,
   numeric_value, test.unit, test.reference_range,
   test.status.getD (S "NORMAL"), test.sect.getD (S "other")⟩

/-- The force-unitless special branch: use the catalog's unitless bounds. -/
def unitlessOut (corrected : TestOut) (numeric_value : Option ℚ) (e : StdEntry) : TestOut :=
  { corrected with
    unit := [],
    reference_range := fmtNum e.min ++ S " - " ++ fmtNum e.max,
    status := match numeric_value with
      | some v => calculate_status v (some e.min) (some e.max)
      | none => corrected.status,
    sect := e.sect }

/-- The sex-specific special branch: use the catalog's sex sub-range. -/
def genderOut (corrected : TestOut) (numeric_value : Option ℚ) (patient_sex : Option Str)
    (e : StdEntry) (gmin gmax : ℚ) : TestOut :=
  { corrected with
    status := match numeric_value with
      | some v => calculate_status v (some gmin) (some gmax)
      | none => corrected.status,
    reference_range := match numeric_value with
      | some _ => fmtNum gmin ++ S " - " ++ fmtNum gmax ++ S " (" ++
          capitalizeS (patient_sex.getD []) ++ S ")"
      | none => corrected.reference_range,
    sect := e.sect,
    unit := e.unit }

/-- PRIORITY 2 of the loop body (the `elif std_range:` block): the catalog
fallback, guarded by the lakhs unit mismatch, the qualitative special case,
and the requirement that no extracted range text is present. -/
def fallbackOut (test : TestIn) (test_name : Str) (numeric_value : Option ℚ)
    (e : StdEntry) (corrected : TestOut) : TestOut :=
  if should_skip_standard_range test_name corrected.unit (some e) then
    -- Unit mismatch: keep the original status, only adopt the section.
    { corrected with sect := e.sect }
  else if e.qualitative then
    { corrected with
      reference_range := S "Negative",
      status :=
        if numeric_value == some 0 ||
            upperS test.value ∈ [S "NIL", S "NEGATIVE", S "ABSENT"] then
          S "NORMAL"
        else S "HIGH",
      sect := e.sect }
  else if corrected.reference_range.isEmpty ||
      corrected.reference_range == S "-" ||
      corrected.reference_range == S "N/A" then
    { corrected with
      reference_range := fmtNum e.min ++ S " - " ++ fmtNum e.max,
      unit := e.unit,
      status := match numeric_value with
        | some v => calculate_status v (some e.min) (some e.max)
        | none => corrected.status,
      sect := e.sect }
  else
    -- Unparseable extracted range: keep the original status.
    { corrected with sect := e.sect }

/-- The range-resolution tail of the loop body: PRIORITY 1 (the extracted
document range, when it parses and a numeric value exists) and otherwise
the catalog fallback; `_parse_reference_range`'s `ValueError` propagates. -/
def rangeStage (std_range : Option StdEntry) (test_name : Str) (numeric_value : Option ℚ)
    (test : TestIn) (corrected : TestOut) : Except PyErr (Option TestOut) :=
  match parse_reference_range corrected.reference_range with
  | .error e => .error e
  | .ok (extracted_min, extracted_max) =>
    match extracted_min, extracted_max, numeric_value with
    | some emn, some emx, some v =>
      .ok (some { corrected with
        status := calculate_status v (some emn) (some emx),
        sect := match std_range with
          | some e => e.sect
          | none => corrected.sect })
    | _, _, _ =>
      match std_range with
      | none => .ok (some corrected)
      | some e => .ok (some (fallbackOut test test_name numeric_value e corrected))

/-- The per-element body of the `for test in lab_tests` loop of
`validate_and_correct_lab_results` (the loop body touches no state shared
between iterations: `seen_tests` and `existing_test_names` are computed but
never read in the source). `.ok none` is a `continue` that drops the
record; `.error` is the uncaught `ValueError` of `_parse_reference_range`.
The pure sub-expressions bound to Python locals (`test_name`,
`numeric_value`, `std_range`, `corrected`) are written out at each use. -/
def validateOne (patient_sex : Option Str) (test : TestIn) : Except PyErr (Option TestOut) :=
  -- Skip invalid entries (this guard appears twice verbatim in the source).
  if (stripS test.test_name).isEmpty ||
      upperS (stripS test.test_name) ∈
        [S "MORE THAN", S "LESS THAN", S "NIL", S "ABSENT"] then
    .ok none
  -- Hallucination guard: suspicious zero values.
  else if upperS (stripS test.test_name) ∈ suspicious_zero_tests &&
      parse_numeric_value test.value == some 0 then
    .ok none
  -- Clean test name (qualitative prefixes), then length guard.
  else if (normalize_test_name (stripS test.test_name)).length < 2 then
    .ok none
  -- SPECIAL HANDLING: culture/sensitivity tests.
  else if isSensitivityFlag (lowerS (test.sect.getD [])) (stripS (upperS test.value))
      (upperS (stripS test.test_name)) then
    .ok (some (sensitivityOut (normalize_test_name (stripS test.test_name)) test.value
      (test.status.getD (S "NORMAL"))))
  else
    -- SPECIAL HANDLING: force-unitless ratio tests.
    match unitlessSel (find_standard_range (normalize_test_name (stripS test.test_name))) with
    | some e =>
      .ok (some (unitlessOut
        (correctedBase test (normalize_test_name (stripS test.test_name))
          (parse_numeric_value test.value))
        (parse_numeric_value test.value) e))
    | none =>
      -- SPECIAL HANDLING: sex-specific catalog ranges.
      match genderSel (find_standard_range (normalize_test_name (stripS test.test_name)))
          patient_sex with
      | some (e, gmin, gmax) =>
        .ok (some (genderOut
          (correctedBase test (normalize_test_name (stripS test.test_name))
            (parse_numeric_value test.value))
          (parse_numeric_value test.value) patient_sex e gmin gmax))
      | none =>
        rangeStage (find_standard_range (normalize_test_name (stripS test.test_name)))
          (normalize_test_name (stripS test.test_name))
          (parse_numeric_value test.value) test
          (correctedBase test (normalize_test_name (stripS test.test_name))
            (parse_numeric_value test.value))

/-- The loop of `validate_and_correct_lab_results`, accumulating
`corrected_tests`; the first uncaught `ValueError` aborts the call. -/
def validateList (patient_sex : Option Str) : List TestIn → Except PyErr (List TestOut)
  | [] => .ok []
  | t :: ts =>
    match validateOne patient_sex t with
    | .error e => .error e
    | .ok o =>
      match validateList patient_sex ts with
      | .error e => .error e
      | .ok rest => .ok (match o with | none => rest | some c => c :: rest)

/-- `validate_and_correct_lab_results(lab_tests, patient_info)`. -/
def validate_and_correct_lab_results (lab_tests : List TestIn)
    (patient_info : Option PatInfo) : Except PyErr (List TestOut) :=
  if lab_tests.isEmpty then .ok []
  else validateList (patientSexOf patient_info) lab_tests

end Gemini

namespace StructuredParser

/-! ## `parsers/structured_parser.py`: `StructuredLabParser._determine_status` -/

/-- One number token of the regex `\d+\.?\d*`, anchored at the head of `s`
(greedy; backtracking inside it can never rescue a failed continuation
because the characters it would give back are digits or a dot). Returns the
token and the rest of the string. -/
def numTokHere (s : Str) : Option (Str × Str) :=
  match s with
  | [] => none
  | c :: _ =>
    if c.isDigit then
      let ip := s.takeWhile Char.isDigit
      match s.drop ip.length with
      | '.' :: r =>
        let fp := r.takeWhile Char.isDigit
        some (ip ++ '.' :: fp, r.drop fp.length)
      | rest => some (ip, rest)
    else none

/-- Value of a `\d+\.?\d*` token (always a valid Python float). -/
def valOfTok (t : Str) : ℚ := (pyFloatOfRun t).getD 0

/-- One attempt of `(\d+\.?\d*)\s*-\s*(\d+\.?\d*)` anchored at the head. -/
def dashTryHere (s : Str) : Option (Str × Str) :=
  match numTokHere s with
  | none => none
  | some (t1, rest) =>
    match rest.dropWhile isSpaceC with
    | '-' :: r2 =>
      match numTokHere (r2.dropWhile isSpaceC) with
      | some (t2, _) => some (t1, t2)
      | none => none
    | _ => none

/-- `re.search(r'(\d+\.?\d*)\s*-\s*(\d+\.?\d*)', s)`: leftmost match. -/
def dashSearch : Str → Option (Str × Str)
  | [] => none
  | c :: t =>
    match dashTryHere (c :: t) with
    | some p => some p
    | none => dashSearch t

/-- One attempt of `(?:upto|<)\s*(\d+\.?\d*)` (case-insensitive) anchored at
the head. -/
def uptoTryHere (s : Str) : Option Str :=
  if (S "upto").isPrefixOf (lowerS s) then
    (numTokHere ((s.drop 4).dropWhile isSpaceC)).map (·.1)
  else
    match s with
    | '<' :: r => (numTokHere (r.dropWhile isSpaceC)).map (·.1)
    | _ => none

/-- `re.search(r'(?:upto|<)\s*(\d+\.?\d*)', s, re.IGNORECASE)`. -/
def uptoSearch : Str → Option Str
  | [] => none
  | c :: t =>
    match uptoTryHere (c :: t) with
    | some p => some p
    | none => uptoSearch t

/-- One attempt of `>\s*(\d+\.?\d*)` anchored at the head. -/
def gtTryHere (s : Str) : Option Str :=
  match s with
  | '>' :: r => (numTokHere (r.dropWhile isSpaceC)).map (·.1)
  | _ => none

/-- `re.search(r'>\s*(\d+\.?\d*)', s)`. -/
def gtSearch : Str → Option Str
  | [] => none
  | c :: t =>
    match gtTryHere (c :: t) with
    | some p => some p
    | none => gtSearch t

/-- Python `float(value_str)` as used by `_determine_status`: both call
sites pass strings captured by `(\d+\.?\d*)`, so the digit/dot grammar
(with surrounding whitespace stripped) is the behaviour exercised. -/
def pyFloatSimple (s : Str) : Option ℚ := pyFloatOfRun (stripS s)

/-- `ref_range.replace('–', '-').replace('—', '-')`. -/
def dashNormalize (s : Str) : Str :=
  s.map (fun c => if c == '–' || c == '—' then '-' else c)

/-- `StructuredLabParser._determine_status(value_str, ref_range)`. -/
def determine_status (value_str ref_range : Str) : Str :=
  match pyFloatSimple value_str with
  | none => S "UNKNOWN"
  | some value =>
    if ref_range.isEmpty then S "UNKNOWN"
    else
      let rr := dashNormalize ref_range
      match dashSearch rr with
      | some (t1, t2) =>
        if value < valOfTok t1 then S "LOW"
        else if value > valOfTok t2 then S "HIGH"
        else S "NORMAL"
      | none =>
        match uptoSearch rr with
        | some t => if value > valOfTok t then S "HIGH" else S "NORMAL"
        | none =>
          match gtSearch rr with
          | some t => if value < valOfTok t then S "LOW" else S "NORMAL"
          | none => S "UNKNOWN"

end StructuredParser

namespace LabParser

/-! ## `parsers/lab_parser.py`: `LabParser._merge_results` -/

/-- A parsed lab-result record, restricted to the keys `_merge_results`
reads (`test_name_normalized`) plus enough payload to tell records apart;
records flow through the merge unchanged, so the remaining keys are
irrelevant to it. -/
structure LabRec where
  test_name : Str
  test_name_normalized : Str
  value : Str
  source : Str
deriving DecidableEq, Repr

/-- The `for result in text_results` loop of `_merge_results`: keep a text
record iff its lower-cased code is non-empty and unseen, adding kept codes
to `seen_tests`. -/
def mergeLoop (seen : List Str) : List LabRec → List LabRec
  | [] => []
  | r :: rest =>
    if !(lowerS r.test_name_normalized).isEmpty &&
        !seen.contains (lowerS r.test_name_normalized) then
      r :: mergeLoop (lowerS r.test_name_normalized :: seen) rest
    else
      mergeLoop seen rest

/-- `LabParser._merge_results(table_results, text_results)`. -/
def merge_results (table_results text_results : List LabRec) : List LabRec :=
  table_results ++
    mergeLoop (table_results.map (fun r => lowerS r.test_name_normalized)) text_results

end LabParser

namespace RiskAnalyzer

/-! ## `utils/reference_ranges.py` and `analyzers/risk_analyzer.py` -/

/-- One entry of `REFERENCE_RANGES`: bounds, unit, display text, optional
critical thresholds and optional sex-specific bounds. -/
structure RefEntry where
  min : ℚ
  max : ℚ
  unit : Str
  range_text : Str
  critical_low : Option ℚ
  critical_high : Option ℚ
  male : Option (ℚ × ℚ)
  female : Option (ℚ × ℚ)
deriving DecidableEq, Repr

/-- Row constructor for `REFERENCE_RANGES`. -/
def R (mn mx : ℚ) (u rt : String) (cl ch : Option ℚ)
    (m f : Option (ℚ × ℚ)) : RefEntry :=
  ⟨mn, mx, S u, S rt, cl, ch, m, f⟩

/-- `REFERENCE_RANGES` from `utils/reference_ranges.py`. -/
def REFERENCE_RANGES : List (Str × RefEntry) := [
  (S "hemoglobin", R 12 17 "g/dL" "12.0 - 17.0 g/dL" (some 8) (some 20)
    (some (27/2, 35/2)) (some (12, 16))),
  (S "hematocrit", R 36 52 "%" "36 - 52%" (some 20) (some 60) none none),
  (S "rbc_count", R 4 6 "million/µL" "4.0 - 6.0 million/µL" (some (5/2)) (some (15/2)) none none),
  (S "wbc_count", R (Q 4500) (Q 11000) "cells/µL" "4,500 - 11,000 cells/µL" (some (Q 2000)) (some (Q 30000)) none none),
  (S "platelet_count", R (Q 150000) (Q 400000) "cells/µL" "150,000 - 400,000 cells/µL" (some (Q 50000)) (some (Q 1000000)) none none),
  (S "mcv", R 80 100 "fL" "80 - 100 fL" none none none none),
  (S "mch", R 27 33 "pg" "27 - 33 pg" none none none none),
  (S "mchc", R 32 36 "g/dL" "32 - 36 g/dL" none none none none),
  (S "rdw", R (23/2) (29/2) "%" "11.5 - 14.5%" none none none none),
  (S "neutrophils", R 40 70 "%" "40 - 70%" none none none none),
  (S "lymphocytes", R 20 40 "%" "20 - 40%" none none none none),
  (S "monocytes", R 2 8 "%" "2 - 8%" none none none none),
  (S "eosinophils", R 1 4 "%" "1 - 4%" none none none none),
  (S "basophils", R 0 1 "%" "0 - 1%" none none none none),
  (S "glucose_fasting", R 70 100 "mg/dL" "70 - 100 mg/dL" (some 50) (some 200) none none),
  (S "glucose_random", R 70 140 "mg/dL" "70 - 140 mg/dL" (some 50) (some (Q 500)) none none),
  (S "glucose_pp", R 70 140 "mg/dL" "< 140 mg/dL (2hr after meal)" none (some 300) none none),
  (S "hba1c", R 4 (28/5) "%" "< 5.7% (normal), 5.7-6.4% (prediabetes)" none (some 14) none none),
  (S "creatinine", R (3/5) (6/5) "mg/dL" "0.6 - 1.2 mg/dL" none (some 10)
    (some (7/10, 13/10)) (some (3/5, 11/10))),
  (S "bun", R 7 20 "mg/dL" "7 - 20 mg/dL" none (some 100) none none),
  (S "urea", R 15 45 "mg/dL" "15 - 45 mg/dL" none none none none),
  (S "uric_acid", R (5/2) 7 "mg/dL" "2.5 - 7.0 mg/dL" none none
    (some (7/2, 36/5)) (some (5/2, 6))),
  (S "egfr", R 90 120 "mL/min/1.73m²" ">90 mL/min/1.73m² (normal)" (some 15) none none none),
  (S "sgpt_alt", R 0 40 "U/L" "0 - 40 U/L" none (some (Q 1000)) none none),
  (S "sgot_ast", R 0 40 "U/L" "0 - 40 U/L" none (some (Q 1000)) none none),
  (S "alp", R 44 147 "U/L" "44 - 147 U/L" none none none none),
  (S "ggt", R 0 60 "U/L" "0 - 60 U/L" none none none none),
  (S "bilirubin_total", R (1/10) (6/5) "mg/dL" "0.1 - 1.2 mg/dL" none (some 15) none none),
  (S "bilirubin_direct", R 0 (3/10) "mg/dL" "0 - 0.3 mg/dL" none none none none),
  (S "albumin", R (7/2) 5 "g/dL" "3.5 - 5.0 g/dL" (some 2) none none none),
  (S "total_protein", R 6 (83/10) "g/dL" "6.0 - 8.3 g/dL" none none none none),
  (S "cholesterol_total", R 0 200 "mg/dL" "< 200 mg/dL (desirable)" none (some 300) none none),
  (S "hdl", R 40 60 "mg/dL" "> 40 mg/dL (higher is better)" (some 25) none none none),
  (S "ldl", R 0 100 "mg/dL" "< 100 mg/dL (optimal)" none (some 190) none none),
  (S "triglycerides", R 0 150 "mg/dL" "< 150 mg/dL" none (some (Q 500)) none none),
  (S "vldl", R 5 40 "mg/dL" "5 - 40 mg/dL" none none none none),
  (S "tsh", R (2/5) 4 "mIU/L" "0.4 - 4.0 mIU/L" (some (1/10)) (some 10) none none),
  (S "t3", R 80 200 "ng/dL" "80 - 200 ng/dL" none none none none),
  (S "t4", R 5 12 "µg/dL" "5.0 - 12.0 µg/dL" none none none none),
  (S "free_t3", R (23/10) (21/5) "pg/mL" "2.3 - 4.2 pg/mL" none none none none),
  (S "free_t4", R (4/5) (9/5) "ng/dL" "0.8 - 1.8 ng/dL" none none none none),
  (S "sodium", R 136 145 "mEq/L" "136 - 145 mEq/L" (some 120) (some 160) none none),
  (S "potassium", R (7/2) 5 "mEq/L" "3.5 - 5.0 mEq/L" (some (5/2)) (some (13/2)) none none),
  (S "chloride", R 98 106 "mEq/L" "98 - 106 mEq/L" (some 80) (some 120) none none),
  (S "calcium", R (17/2) (21/2) "mg/dL" "8.5 - 10.5 mg/dL" (some 6) (some 13) none none),
  (S "magnesium", R (3/2) (5/2) "mg/dL" "1.5 - 2.5 mg/dL" (some 1) (some 4) none none),
  (S "phosphorus", R (5/2) (9/2) "mg/dL" "2.5 - 4.5 mg/dL" none none none none),
  (S "troponin", R 0 (1/25) "ng/mL" "< 0.04 ng/mL" none (some (1/10)) none none),
  (S "ck_mb", R 0 25 "U/L" "0 - 25 U/L" none (some 100) none none),
  (S "bnp", R 0 100 "pg/mL" "< 100 pg/mL" none (some (Q 500)) none none),
  (S "crp", R 0 3 "mg/L" "< 3.0 mg/L (low risk)" none (some 10) none none),
  (S "esr", R 0 20 "mm/hr" "0 - 20 mm/hr" none none (some (0, 15)) (some (0, 20))),
  (S "pt", R 11 (27/2) "seconds" "11 - 13.5 seconds" none (some 30) none none),
  (S "inr", R (4/5) (11/10) "" "0.8 - 1.1 (normal), 2-3 (anticoagulant therapy)" none (some 5) none none),
  (S "aptt", R 30 40 "seconds" "30 - 40 seconds" none (some 100) none none),
  (S "vitamin_d", R 30 100 "ng/mL" "30 - 100 ng/mL" (some 10) none none none),
  (S "vitamin_b12", R 200 (Q 900) "pg/mL" "200 - 900 pg/mL" none none none none),
  (S "folate", R 3 17 "ng/mL" "3 - 17 ng/mL" none none none none),
  (S "iron", R 60 170 "µg/dL" "60 - 170 µg/dL" none none
    (some (65, 175)) (some (50, 170))),
  (S "ferritin", R 12 300 "ng/mL" "12 - 300 ng/mL" none none
    (some (24, 336)) (some (11, 307))),
  (S "tibc", R 250 370 "µg/dL" "250 - 370 µg/dL" none none none none)]

/-- `get_reference_range(test_code, sex=None)`: dictionary lookup on the
lower-cased, stripped code, then the sex-specific bounds override applied
to a copy. -/
def get_reference_range (test_code : Str) (sex : Option Str) : Option RefEntry :=
  match REFERENCE_RANGES.lookup (stripS (lowerS test_code)) with
  | none => none
  | some ref =>
    match sex with
    | none => some ref
    | some sx =>
      if sx.isEmpty then some ref
      else
        let sl := lowerS sx
        match if sl == S "male" then ref.male
              else if sl == S "female" then ref.female else none with
        | some (mn, mx) => some { ref with min := mn, max := mx }
        | none => some ref

/-- `RiskAnalyzer._determine_severity(test_code, value, status, ref_data)`
(`test_code` is unused in the source body as well). -/
def determine_severity (_test_code : Str) (value : ℚ) (status : Str)
    (ref_data : Option RefEntry) : Str :=
  let status_upper := upperS status
  if status_upper == S "NORMAL" then S "NORMAL"
  else
    match ref_data with
    | none =>
      if status_upper == S "HIGH" || status_upper == S "LOW" then S "MODERATE"
      else S "NORMAL"
    | some rd =>
      if (rd.critical_low.map (fun cl => decide (value < cl))).getD false then
        S "CRITICAL"
      else if (rd.critical_high.map (fun ch => decide (value > ch))).getD false then
        S "CRITICAL"
      else if value < rd.min then
        let deviation : ℚ := if rd.min > 0 then (rd.min - value) / rd.min * 100 else 50
        if deviation > 30 then S "HIGH"
        else if deviation > 15 then S "MODERATE"
        else S "LOW"
      else if value > rd.max then
        let deviation : ℚ := if rd.max > 0 then (value - rd.max) / rd.max * 100 else 50
        if deviation > 30 then S "HIGH"
        else if deviation > 15 then S "MODERATE"
        else S "LOW"
      else S "NORMAL"

/-- An input element of `lab_results` (the dictionary keys `analyze` and
its helpers read; a missing key is modelled as the `.get` default `""`). -/
structure ResultIn where
  test_name_normalized : Str
  test_name : Str
  numeric_value : Option ℚ
  unit : Str
  status : Str
  reference_range : Str
deriving DecidableEq, Repr

/-- An alert dictionary as built by `_generate_alert` (minus the
display-only `message`/`recommendation` templates, which feed nothing). -/
structure Alert where
  test_name : Str
  test_code : Str
  value : ℚ
  unit : Str
  status : Str
  severity : Str
  reference_range : Str
  requires_immediate_attention : Bool
deriving DecidableEq, Repr

/-- `RiskAnalyzer._generate_alert(result)`. -/
def generate_alert (result : ResultIn) : Option Alert :=
  match result.numeric_value with
  | none => none
  | some v =>
    let test_code := result.test_name_normalized
    let test_name := if result.test_name.isEmpty then test_code else result.test_name
    let ref_data := get_reference_range test_code none
    let severity := determine_severity test_code v result.status ref_data
    if severity == S "NORMAL" then none
    else
      some ⟨test_name, test_code, v, result.unit, result.status, severity,
        if !result.reference_range.isEmpty then result.reference_range
        else ((ref_data.map (·.range_text)).getD []),
        severity == S "CRITICAL"⟩

/-- `self.condition_patterns`, in insertion order. -/
def condition_patterns : List (Str × List Str) := [
  (S "anemia", [S "hemoglobin", S "hematocrit", S "rbc_count", S "mcv", S "mch", S "iron", S "ferritin"]),
  (S "diabetes", [S "glucose_fasting", S "glucose_random", S "hba1c"]),
  (S "kidney_disease", [S "creatinine", S "bun", S "egfr", S "urea"]),
  (S "liver_disease", [S "sgpt_alt", S "sgot_ast", S "bilirubin_total", S "alp", S "albumin"]),
  (S "infection", [S "wbc_count", S "neutrophils", S "crp", S "esr"]),
  (S "thyroid_disorder", [S "tsh", S "t3", S "t4", S "free_t3", S "free_t4"]),
  (S "cardiovascular_risk", [S "cholesterol_total", S "ldl", S "hdl", S "triglycerides", S "troponin"]),
  (S "electrolyte_imbalance", [S "sodium", S "potassium", S "calcium", S "chloride", S "magnesium"]),
  (S "coagulation_disorder", [S "pt", S "inr", S "aptt", S "platelet_count"])]

/-- Python dict insert (`d[k] = v`): overwrite in place or append. -/
def dictInsert (d : List (Str × Str)) (k v : Str) : List (Str × Str) :=
  match d with
  | [] => [(k, v)]
  | (k0, v0) :: rest =>
    if k0 == k then (k0, v) :: rest else (k0, v0) :: dictInsert rest k v

/-- Helper for `titleName`: capitalise the character starting each word. -/
def titleGo : Bool → Str → Str
  | _, [] => []
  | atStart, c :: t =>
    if c == '_' then ' ' :: titleGo true t
    else (if atStart then c.toUpper else c) :: titleGo false t

/-- `condition.replace("_", " ").title()` for the code-style names used by
`condition_patterns` (lower-case words separated by underscores). -/
def titleName (s : Str) : Str := titleGo true s

/-- A detected-condition dictionary (minus the display-only `message`). -/
structure Cond where
  condition : Str
  confidence : ℚ
  indicators : List (Str × Str)
deriving DecidableEq, Repr

/-- The `abnormal_tests` dictionary of `_detect_conditions`. -/
def abnormalTests (lab_results : List ResultIn) : List (Str × Str) :=
  lab_results.foldl
    (fun d r =>
      let status_upper := upperS r.status
      if status_upper == S "HIGH" || status_upper == S "LOW" then
        dictInsert d r.test_name_normalized status_upper
      else d)
    []

/-- The `matching` list of `_detect_conditions` for one signature: the
member codes found in the abnormal dictionary, with their statuses. -/
def condMatching (abnormal_tests : List (Str × Str)) (codes : List Str) : List (Str × Str) :=
  codes.filterMap (fun t => (abnormal_tests.lookup t).map (fun st => (t, st)))

/-- The detected condition for one signature, when at least two of its
codes are abnormal (`None` mirrors the loop appending nothing). -/
def condOf (abnormal_tests : List (Str × Str)) (cp : Str × List Str) : Option Cond :=
  if (condMatching abnormal_tests cp.2).length ≥ 2 then
    some ⟨titleName cp.1,
      min (((condMatching abnormal_tests cp.2).length : ℚ) / (cp.2.length : ℚ)) 1,
      condMatching abnormal_tests cp.2⟩
  else none

/-- One iteration of the `for condition, related_tests in
self.condition_patterns.items()` loop. -/
def condStep (abnormal_tests : List (Str × Str)) (acc : List Cond) (cp : Str × List Str) :
    List Cond :=
  match condOf abnormal_tests cp with
  | some c => acc ++ [c]
  | none => acc

/-- `RiskAnalyzer._detect_conditions(lab_results)`. -/
def detect_conditions (lab_results : List ResultIn) : List Cond :=
  if (abnormalTests lab_results).isEmpty then []
  else
    (condition_patterns.foldl (condStep (abnormalTests lab_results)) []).mergeSort
      (fun a b => decide (b.confidence ≤ a.confidence))

/-- The `severity_weights` dictionary (`.get(…, 0)`). -/
def severityWeight (sev : Str) : ℕ :=
  if sev == S "CRITICAL" then 40
  else if sev == S "HIGH" then 25
  else if sev == S "MODERATE" then 15
  else if sev == S "LOW" then 5
  else 0

/-- Floor of a rational, written computably (`den` is positive, so the
Euclidean division of `num` by `den` is the floor division). -/
def ratFloor (x : ℚ) : ℤ := x.num / (x.den : ℤ)

/-- Python `round` on a float: round half to even. -/
def pyRound (x : ℚ) : ℤ :=
  if x - ratFloor x < 1/2 then ratFloor x
  else if 1/2 < x - ratFloor x then ratFloor x + 1
  else if ratFloor x % 2 = 0 then ratFloor x else ratFloor x + 1

/-- `RiskAnalyzer._calculate_risk_score(alerts, total_tests)`. -/
def calculate_risk_score (alerts : List Alert) (total_tests : ℕ) : ℤ :=
  if alerts.isEmpty || total_tests = 0 then 0
  else
    let score : ℕ := alerts.foldl (fun s a => s + severityWeight a.severity) 0
    pyRound (min ((score : ℚ) * (10 / (max total_tests 1 : ℚ))) 100)

/-- `RiskAnalyzer._get_risk_level(score)`. -/
def get_risk_level (score : ℤ) : Str :=
  if score ≥ 70 then S "CRITICAL"
  else if score ≥ 50 then S "HIGH"
  else if score ≥ 30 then S "MODERATE"
  else if score > 0 then S "LOW"
  else S "NORMAL"

/-- The `severity_order` ranking used to sort alerts (`.get(…, 99)`). -/
def severityRank (sev : Str) : ℕ :=
  if sev == S "CRITICAL" then 0
  else if sev == S "HIGH" then 1
  else if sev == S "MODERATE" then 2
  else if sev == S "LOW" then 3
  else 99

/-- The result dictionary of `RiskAnalyzer.analyze` (minus the display-only
`summary` text). -/
structure Report where
  alerts : List Alert
  abnormal_count : ℕ
  critical_count : ℕ
  total_tests : ℕ
  risk_score : ℤ
  risk_level : Str
  conditions : List Cond
deriving Repr

/-- One iteration of the alert/abnormal/critical accumulation loop of
`analyze` over the accumulator `(alerts, abnormal_results,
critical_results)`. -/
def analyzeStep (acc : List Alert × List ResultIn × List ResultIn) (result : ResultIn) :
    List Alert × List ResultIn × List ResultIn :=
  match result.numeric_value with
  | none => acc
  | some _ =>
    match generate_alert result with
    | none => acc
    | some alert =>
      (acc.1 ++ [alert],
       if alert.severity == S "CRITICAL" then acc.2.1 ++ [result]
       else if alert.severity == S "HIGH" || alert.severity == S "MODERATE" then
         acc.2.1 ++ [result]
       else acc.2.1,
       if alert.severity == S "CRITICAL" then acc.2.2 ++ [result] else acc.2.2)

/-- The alert/abnormal/critical accumulation loop of `analyze`; returns
`(alerts, abnormal_results, critical_results)` in discovery order. -/
def analyzeLoop (lab_results : List ResultIn) :
    List Alert × List ResultIn × List ResultIn :=
  lab_results.foldl analyzeStep ([], [], [])

/-- `RiskAnalyzer.analyze(lab_results)` (a stable sort models
`list.sort(key=severity_order.get)`). -/
def analyze (lab_results : List ResultIn) : Report :=
  let acc := analyzeLoop lab_results
  let alerts := acc.1.mergeSort (fun a b => severityRank a.severity ≤ severityRank b.severity)
  let conditions := detect_conditions lab_results
  let risk_score := calculate_risk_score alerts lab_results.length
  ⟨alerts, acc.2.1.length, acc.2.2.length, lab_results.length,
   risk_score, get_risk_level risk_score, conditions⟩

end RiskAnalyzer

/-! ## Specification-side formulas and concrete fixtures -/

/-- Spec-side deviation percentage: `|v − boundary| / boundary × 100`, with
the documented fallback of 50 when the boundary is 0. -/
def specDeviationPct (v b : ℚ) : ℚ :=
  if b = 0 then 50 else |v - b| / b * 100

/-- Spec-side severity tiers over a deviation percentage: `> 30 → HIGH`,
`> 15 → MODERATE`, otherwise `LOW`. -/
def specGrade (d : ℚ) : Str :=
  if d > 30 then S "HIGH" else if d > 15 then S "MODERATE" else S "LOW"

/-- Whether a value breaches an explicit critical threshold of an entry
(`value < critical_low` or `value > critical_high`). -/
def critBreach (rd : RiskAnalyzer.RefEntry) (v : ℚ) : Bool :=
  (rd.critical_low.map (fun cl => decide (v < cl))).getD false ||
  (rd.critical_high.map (fun ch => decide (v > ch))).getD false

/-- A concrete CRITICAL alert (fasting glucose 250 breaches
`critical_high = 200`). -/
def criticalAlertEx : RiskAnalyzer.Alert :=
  ⟨S "Glucose Fasting", S "glucose_fasting", 250, S "mg/dL", S "HIGH",
   S "CRITICAL", S "70 - 100 mg/dL", true⟩

/-- Two table-origin records sharing the canonical code `hemoglobin`. -/
def hbTable1 : LabParser.LabRec := ⟨S "Hemoglobin", S "hemoglobin", S "11.2", S "table"⟩

/-- Second table-origin record with the same canonical code. -/
def hbTable2 : LabParser.LabRec := ⟨S "HB", S "hemoglobin", S "12.0", S "table"⟩

/-- A text-origin hemoglobin record. -/
def hbText : LabParser.LabRec := ⟨S "Haemoglobin", S "hemoglobin", S "10.9", S "text"⟩

/-- A text-origin record with a fresh code. -/
def tshText : LabParser.LabRec := ⟨S "TSH", S "tsh", S "2.1", S "text"⟩

/-- Input record for the C1 counterexample: PUS CELLS with a parseable
document-supplied range `0 - 10` and value 2. -/
def pusCellsIn : Gemini.TestIn :=
  ⟨S "PUS CELLS", S "2", S "/HPF", S "0 - 10", some (S "NORMAL"), none⟩

/-- Output record produced for `pusCellsIn` with a female patient: status
comes from the catalog's female override `(3, 7)`, not the document range. -/
def pusCellsOut : Gemini.TestOut :=
  ⟨S "PUS CELLS", S "2", some 2, S "/HPF", S "3 - 7 (Female)", S "LOW", S "urine_analysis"⟩

/-- Input record for the C3 counterexample: a test unknown to the catalog
with no document range at all. -/
def xyzqIn : Gemini.TestIn := ⟨S "XYZQ TEST", S "5", [], [], none, none⟩

/-- Output record produced for `xyzqIn`: no bounds were resolved anywhere,
yet the status is the `"NORMAL"` default, not `"UNKNOWN"`. -/
def xyzqOut : Gemini.TestOut := ⟨S "XYZQ TEST", S "5", some 5, [], [], S "NORMAL", S "other"⟩

/-- Input record for the C9 failing input: a document range whose `"> X"`
arm extracts the run `1.2.3`, which `float` rejects. -/
def xyzqBadIn : Gemini.TestIn := ⟨S "XYZQ TEST", S "5", [], S "> 1.2.3", none, none⟩

/-- A fasting-blood-sugar record carrying the document range `70 - 110`. -/
def glucoseIn : Gemini.TestIn :=
  ⟨S "FASTING BLOOD SUGAR", S "128", S "mg/dL", S "70 - 110", some (S "NORMAL"), none⟩

/-- A platelet-count record reported in lakhs with no document range. -/
def plateletIn : Gemini.TestIn :=
  ⟨S "PLATELET COUNT", S "3.5", S "lakhs/cumm", [], some (S "LOW"), none⟩

/-- The catalog entry stored under the key `"PLATELET COUNT"`. -/
def plateletEntry : Gemini.StdEntry := Gemini.E (Q 150000) (Q 400000) "/µL" "hematology"

/-- The risk-analyzer catalog entry for `hemoglobin`. -/
def hemoglobinEntry : RiskAnalyzer.RefEntry :=
  RiskAnalyzer.R 12 17 "g/dL" "12.0 - 17.0 g/dL" (some 8) (some 20)
    (some (27/2, 35/2)) (some (12, 16))

/-- Whether an alert's severity counts as abnormal in `analyze`
(CRITICAL, HIGH or MODERATE). -/
def isAbnSev (a : RiskAnalyzer.Alert) : Bool :=
  a.severity == S "CRITICAL" ||
    (a.severity == S "HIGH" || a.severity == S "MODERATE")

/-- A fasting-glucose analyzer input whose value 250 breaches the catalog's
`critical_high = 200`. -/
def glucoseResultIn : RiskAnalyzer.ResultIn :=
  ⟨S "glucose_fasting", S "Glucose Fasting", some 250, S "mg/dL", S "HIGH", []⟩

/-- The alert `_generate_alert` produces for `glucoseResultIn`. -/
def glucoseAlert : RiskAnalyzer.Alert :=
  ⟨S "Glucose Fasting", S "glucose_fasting", 250, S "mg/dL", S "HIGH",
   S "CRITICAL", S "70 - 100 mg/dL", true⟩

/-- The number of member codes of a condition signature that are abnormal
(status HIGH or LOW) among a result list — the spec's "matched codes". -/
def abnMatchCount (rs : List RiskAnalyzer.ResultIn) (codes : List Str) : ℕ :=
  (codes.filter (fun t => rs.any (fun r =>
    r.test_name_normalized == t &&
      (upperS r.status == S "HIGH" || upperS r.status == S "LOW")))).length

/-- The catalog entry stored under the key `"T3"`. -/
def t3Entry : Gemini.StdEntry := Gemini.E 80 200 "ng/dL" "thyroid"

/-- The catalog entry stored under the key `"FREE T3"`. -/
def freeT3Entry : Gemini.StdEntry := Gemini.E (23/10) (21/5) "pg/mL" "thyroid"

/-- A concrete lab-result list with two abnormal anemia-signature codes
(hemoglobin LOW, mcv LOW) and one abnormal thyroid code (tsh HIGH). -/
def c6Results : List RiskAnalyzer.ResultIn := [
  ⟨S "hemoglobin", S "Hemoglobin", some 9, S "g/dL", S "LOW", S "13 - 17"⟩,
  ⟨S "mcv", S "MCV", some 70, S "fL", S "Low", S "80 - 100"⟩,
  ⟨S "tsh", S "TSH", some 12, S "uIU/mL", S "HIGH", S "0.4 - 4.2"⟩]

/-- The anemia row of `condition_patterns`, for use in the C6 witness. -/
def anemiaPattern : Str × List Str :=
  (S "anemia", [S "hemoglobin", S "hematocrit", S "rbc_count", S "mcv", S "mch",
    S "iron", S "ferritin"])

/-! ## Helper lemmas -/

theorem ratFloor_eq_floor (q : ℚ) : RiskAnalyzer.ratFloor q = ⌊q⌋ :=
  Rat.floor_def.symm

theorem pyRound_le_of_le {q : ℚ} {n : ℤ} (h : q ≤ (n : ℚ)) : RiskAnalyzer.pyRound q ≤ n := by
  have hfl : ⌊q⌋ ≤ n := by
    have := Int.floor_le_floor h
    simpa using this
  have hfq : (⌊q⌋ : ℚ) ≤ q := Int.floor_le q
  unfold RiskAnalyzer.pyRound
  rw [ratFloor_eq_floor]
  split_ifs with h1 h2 h3
  · exact hfl
  · have hr : (1 : ℚ)/2 ≤ q - ⌊q⌋ := not_lt.mp h1
    have hh : ((⌊q⌋ : ℚ)) + 1/2 ≤ (n : ℚ) := by linarith
    have hlt : (⌊q⌋ : ℚ) < (n : ℚ) := by linarith
    have : ⌊q⌋ < n := by exact_mod_cast hlt
    omega
  · exact hfl
  · have hr : (1 : ℚ)/2 ≤ q - ⌊q⌋ := not_lt.mp h1
    have hh : ((⌊q⌋ : ℚ)) + 1/2 ≤ (n : ℚ) := by linarith
    have hlt : (⌊q⌋ : ℚ) < (n : ℚ) := by linarith
    have : ⌊q⌋ < n := by exact_mod_cast hlt
    omega

theorem le_pyRound_of_le {q : ℚ} {n : ℤ} (h : (n : ℚ) ≤ q) : n ≤ RiskAnalyzer.pyRound q := by
  have hfl : n ≤ ⌊q⌋ := Int.le_floor.mpr h
  unfold RiskAnalyzer.pyRound
  rw [ratFloor_eq_floor]
  split_ifs <;> omega

theorem pyRound_min100 (q : ℚ) :
    RiskAnalyzer.pyRound (min q 100) = min 100 (RiskAnalyzer.pyRound q) := by
  rcases le_total q 100 with h | h
  · rw [min_eq_left h]
    have h100 : RiskAnalyzer.pyRound q ≤ (100 : ℤ) := by
      apply pyRound_le_of_le
      exact_mod_cast h
    exact (min_eq_right h100).symm
  · rw [min_eq_right h]
    have h100 : (100 : ℤ) ≤ RiskAnalyzer.pyRound q := by
      apply le_pyRound_of_le
      exact_mod_cast h
    have hv : RiskAnalyzer.pyRound ((100 : ℚ)) = 100 := by with_unfolding_all decide
    rw [hv]
    exact (min_eq_left h100).symm

theorem foldl_weight (l : List RiskAnalyzer.Alert) (s : ℕ) :
    l.foldl (fun s a => s + RiskAnalyzer.severityWeight a.severity) s =
      s + (l.map (fun a => RiskAnalyzer.severityWeight a.severity)).sum := by
  induction l generalizing s with
  | nil => simp
  | cons a t ih => simp [ih, Nat.add_assoc]

/-! ## Claim theorems -/

/-- C4: for every alert list and test count, the risk score equals
`min(100, round(Σ severity weights × (10 / max(total_tests, 1))))` with
weights CRITICAL=40, HIGH=25, MODERATE=15, LOW=5 (`round` being Python's
banker's rounding); the score is 0 with no alerts or no tests; the risk
level thresholds are ≥70 CRITICAL, ≥50 HIGH, ≥30 MODERATE, >0 LOW, else
NORMAL; and 5 tests with one CRITICAL alert score 80, level CRITICAL. -/
theorem C4_risk_score_level :
    (∀ (alerts : List RiskAnalyzer.Alert) (total_tests : ℕ), 0 < total_tests →
      RiskAnalyzer.calculate_risk_score alerts total_tests =
        min 100 (RiskAnalyzer.pyRound
          (((alerts.map (fun a => RiskAnalyzer.severityWeight a.severity)).sum : ℚ) *
            (10 / (max total_tests 1 : ℚ))))) ∧
    (∀ (alerts : List RiskAnalyzer.Alert) (total_tests : ℕ),
      alerts = [] ∨ total_tests = 0 →
      RiskAnalyzer.calculate_risk_score alerts total_tests = 0) ∧
    (RiskAnalyzer.severityWeight (S "CRITICAL") = 40 ∧
     RiskAnalyzer.severityWeight (S "HIGH") = 25 ∧
     RiskAnalyzer.severityWeight (S "MODERATE") = 15 ∧
     RiskAnalyzer.severityWeight (S "LOW") = 5) ∧
    (∀ s : ℤ,
      (RiskAnalyzer.get_risk_level s = S "CRITICAL" ↔ 70 ≤ s) ∧
      (RiskAnalyzer.get_risk_level s = S "HIGH" ↔ 50 ≤ s ∧ s < 70) ∧
      (RiskAnalyzer.get_risk_level s = S "MODERATE" ↔ 30 ≤ s ∧ s < 50) ∧
      (RiskAnalyzer.get_risk_level s = S "LOW" ↔ 0 < s ∧ s < 30) ∧
      (RiskAnalyzer.get_risk_level s = S "NORMAL" ↔ s ≤ 0)) ∧
    (RiskAnalyzer.calculate_risk_score [criticalAlertEx] 5 = 80 ∧
     RiskAnalyzer.get_risk_level 80 = S "CRITICAL") := by
  refine ⟨?_, ?_, by decide, ?_, by with_unfolding_all decide⟩
  · intro alerts total_tests ht
    unfold RiskAnalyzer.calculate_risk_score
    split_ifs with hc
    · rcases Bool.or_eq_true_iff.mp hc with he | h0
      · rw [List.isEmpty_iff.mp he]
        simp only [List.map_nil, List.sum_nil, Nat.cast_zero, zero_mul]
        with_unfolding_all decide
      · simp only [decide_eq_true_eq] at h0
        omega
    · simp only [foldl_weight, Nat.zero_add]
      exact pyRound_min100 _
  · intro alerts total_tests h
    rcases h with h | h <;> simp [RiskAnalyzer.calculate_risk_score, h]
  · intro s
    unfold RiskAnalyzer.get_risk_level
    split_ifs with h1 h2 h3 h4 <;>
      refine ⟨?_, ?_, ?_, ?_, ?_⟩ <;>
      first
        | exact iff_of_true (by decide) (by omega)
        | exact iff_of_false (by decide) (by omega)

/-- C4 witness: the theorem applied at one CRITICAL alert and 5 tests. -/
theorem C4_witness :
    RiskAnalyzer.calculate_risk_score [criticalAlertEx] 5 =
      min 100 (RiskAnalyzer.pyRound
        ((([criticalAlertEx].map (fun a => RiskAnalyzer.severityWeight a.severity)).sum : ℚ) *
          (10 / (max 5 1 : ℚ)))) ∧
    RiskAnalyzer.calculate_risk_score [] 5 = 0 := by
  exact ⟨C4_risk_score_level.1 [criticalAlertEx] 5 (by decide),
    C4_risk_score_level.2.1 [] 5 (Or.inl rfl)⟩

/-- C2 counterexample: hemoglobin value 5 breaches `critical_low = 8`, yet
with status `"NORMAL"` the analyzer assigns severity NORMAL, not CRITICAL
(the status short-circuit precedes the critical-threshold checks). -/
theorem C2_counterexample :
    RiskAnalyzer.get_reference_range (S "hemoglobin") none = some hemoglobinEntry ∧
    hemoglobinEntry.critical_low = some 8 ∧
    (5 : ℚ) < 8 ∧
    RiskAnalyzer.determine_severity (S "hemoglobin") 5 (S "NORMAL")
      (RiskAnalyzer.get_reference_range (S "hemoglobin") none) = S "NORMAL" ∧
    S "NORMAL" ≠ S "CRITICAL" := by
  with_unfolding_all decide

/-- C2 (amended): for a result whose status is not NORMAL, a critical
threshold breach always yields severity CRITICAL; otherwise, a value below
min (resp. above max) is graded from the deviation percentage
`|v − boundary| / boundary × 100` with a fallback of 50 at boundary 0:
`> 30 → HIGH`, `> 15 → MODERATE`, otherwise `LOW`. -/
theorem C2_severity_amended (tc : Str) (rd : RiskAnalyzer.RefEntry) (v : ℚ) (status : Str)
    (hs : upperS status ≠ S "NORMAL") (hm0 : 0 ≤ rd.min) (hx0 : 0 ≤ rd.max)
    (hmx : rd.min ≤ rd.max) :
    (critBreach rd v = true →
      RiskAnalyzer.determine_severity tc v status (some rd) = S "CRITICAL") ∧
    (critBreach rd v = false → v < rd.min →
      RiskAnalyzer.determine_severity tc v status (some rd) =
        specGrade (specDeviationPct v rd.min)) ∧
    (critBreach rd v = false → v > rd.max →
      RiskAnalyzer.determine_severity tc v status (some rd) =
        specGrade (specDeviationPct v rd.max)) := by
  have hsb : (upperS status == S "NORMAL") = false := by
    simpa using hs
  refine ⟨?_, ?_, ?_⟩
  · intro hb
    rcases Bool.or_eq_true_iff.mp hb with h | h
    · simp [RiskAnalyzer.determine_severity, hsb, h]
    · simp only [RiskAnalyzer.determine_severity, hsb, Bool.false_eq_true, if_false, h]
      split_ifs <;> rfl
  · intro hb hlt
    rcases Bool.or_eq_false_iff.mp hb with ⟨h1, h2⟩
    have hdev : (if rd.min > 0 then (rd.min - v) / rd.min * 100 else (50 : ℚ)) =
        specDeviationPct v rd.min := by
      unfold specDeviationPct
      rcases eq_or_lt_of_le hm0 with h0 | h0
      · have hn : ¬ rd.min > 0 := by rw [← h0]; exact lt_irrefl 0
        rw [if_neg hn, if_pos h0.symm]
      · have hne : ¬ rd.min = 0 := ne_of_gt h0
        rw [if_pos h0, if_neg hne]
        have habs : |v - rd.min| = rd.min - v := by
          rw [abs_of_neg (by linarith)]
          ring
        rw [habs]
    simp only [RiskAnalyzer.determine_severity, hsb, Bool.false_eq_true, if_false, h1, h2,
      if_pos hlt, hdev]
    unfold specGrade
    rfl
  · intro hb hgt
    rcases Bool.or_eq_false_iff.mp hb with ⟨h1, h2⟩
    have hnlt : ¬ v < rd.min := by linarith
    have hdev : (if rd.max > 0 then (v - rd.max) / rd.max * 100 else (50 : ℚ)) =
        specDeviationPct v rd.max := by
      unfold specDeviationPct
      rcases eq_or_lt_of_le hx0 with h0 | h0
      · have hn : ¬ rd.max > 0 := by rw [← h0]; exact lt_irrefl 0
        rw [if_neg hn, if_pos h0.symm]
      · have hne : ¬ rd.max = 0 := ne_of_gt h0
        rw [if_pos h0, if_neg hne]
        have habs : |v - rd.max| = v - rd.max := abs_of_pos (by linarith)
        rw [habs]
    simp only [RiskAnalyzer.determine_severity, hsb, Bool.false_eq_true, if_false, h1, h2,
      if_neg hnlt, if_pos hgt, hdev]
    unfold specGrade
    rfl

/-- C2 witness: the amended theorem applied at hemoglobin value 5 with
status LOW (critical breach ⇒ CRITICAL) and at fasting-glucose-like bounds
(deviation grading). -/
theorem C2_witness :
    RiskAnalyzer.determine_severity (S "hemoglobin") 5 (S "LOW") (some hemoglobinEntry) =
      S "CRITICAL" ∧
    RiskAnalyzer.determine_severity (S "hemoglobin") 11 (S "LOW") (some hemoglobinEntry) =
      specGrade (specDeviationPct 11 hemoglobinEntry.min) := by
  refine ⟨(C2_severity_amended (S "hemoglobin") hemoglobinEntry 5 (S "LOW")
      (by decide) (by with_unfolding_all decide) (by with_unfolding_all decide)
      (by with_unfolding_all decide)).1 (by with_unfolding_all decide),
    (C2_severity_amended (S "hemoglobin") hemoglobinEntry 11 (S "LOW")
      (by decide) (by with_unfolding_all decide) (by with_unfolding_all decide)
      (by with_unfolding_all decide)).2.1 (by with_unfolding_all decide)
      (by with_unfolding_all decide)⟩

/-- C9: the claim is right and the code is wrong — on the malformed
reference-range string `"> 1.2.3"` the `"> X"` branch of
`_parse_reference_range` calls `float` outside its `try/except`, raising a
`ValueError` that propagates out of `validate_and_correct_lab_results`. -/
theorem C9_exception_escapes :
    Gemini.parse_reference_range (S "> 1.2.3") = .error .valueError ∧
    Gemini.validate_and_correct_lab_results [xyzqBadIn] none = .error .valueError ∧
    Gemini.parse_numeric_value (S "1.2.3") = none := by
  with_unfolding_all decide

set_option maxHeartbeats 1600000 in
/-- C7 counterexample: the label `"FREE T3 LEVEL"` contains `"FREE T3"`,
yet the partial-match fallback of `_find_standard_range` resolves it to the
catalog entry stored under `"T3"` (insertion order puts `"T3"` first), not
to the `"FREE T3"` entry. -/
theorem C7_counterexample :
    Gemini.find_standard_range (S "FREE T3 LEVEL") = some t3Entry ∧
    t3Entry ≠ freeT3Entry ∧
    containsSub (S "FREE T3") (S "FREE T3 LEVEL") = true ∧
    Gemini.STANDARD_REFERENCE_RANGES.lookup (S "T3") = some t3Entry ∧
    Gemini.STANDARD_REFERENCE_RANGES.lookup (S "FREE T3") = some freeT3Entry := by
  with_unfolding_all decide

/-- C7 (amended): an exact canonical-name (dictionary-key) match is always
tried first and wins, so the exact label `FREE T3` resolves to the free-T3
entry; but the partial-match fallback iterates the catalog in insertion
order, where `T3` precedes `FREE T3`, so a longer label containing
`FREE T3` can resolve to the T3 entry instead. -/
theorem C7_exact_match_priority (name : Str) (e : Gemini.StdEntry)
    (h : Gemini.STANDARD_REFERENCE_RANGES.lookup (Gemini.normalize_test_name name) = some e) :
    Gemini.find_standard_range name = some e := by
  unfold Gemini.find_standard_range
  rw [h]

/-- C7 witness: the exact label resolves to the free-T3 entry. -/
theorem C7_witness : Gemini.find_standard_range (S "FREE T3") = some freeT3Entry :=
  C7_exact_match_priority (S "FREE T3") freeT3Entry (by with_unfolding_all decide)

/-- C5 counterexample: two table-origin records with the same canonical
code both survive the merge — deduplication only filters text-origin
records against previously seen codes, never table records against each
other. -/
theorem C5_counterexample :
    LabParser.merge_results [hbTable1, hbTable2] [] = [hbTable1, hbTable2] ∧
    hbTable1.test_name_normalized = hbTable2.test_name_normalized ∧
    hbTable1 ≠ hbTable2 := by
  with_unfolding_all decide

theorem mergeLoop_sound (tx : List LabParser.LabRec) :
    ∀ (seen : List Str) (r : LabParser.LabRec), r ∈ LabParser.mergeLoop seen tx →
      r ∈ tx ∧ lowerS r.test_name_normalized ∉ seen ∧
        lowerS r.test_name_normalized ≠ [] := by
  induction tx with
  | nil => intro seen r h; simp [LabParser.mergeLoop] at h
  | cons a t ih =>
    intro seen r h
    unfold LabParser.mergeLoop at h
    split_ifs at h with hc
    · rcases List.mem_cons.mp h with rfl | hmem
      · have h1 := (Bool.and_eq_true _ _).mp hc
        refine ⟨List.mem_cons_self _ _, ?_, ?_⟩
        · have hcf := h1.2
          simp only [Bool.not_eq_true'] at hcf
          intro hmm
          have hct : seen.contains (lowerS r.test_name_normalized) = true :=
            List.elem_iff.mpr hmm
          rw [hct] at hcf
          exact Bool.true_eq_false.mp hcf
        · have := h1.1
          simp only [Bool.not_eq_true'] at this
          simpa using this
      · obtain ⟨hm, hns, hne⟩ := ih _ r hmem
        exact ⟨List.mem_cons_of_mem _ hm, fun hx => hns (List.mem_cons_of_mem _ hx), hne⟩
    · obtain ⟨hm, hns, hne⟩ := ih _ r h
      exact ⟨List.mem_cons_of_mem _ hm, hns, hne⟩

theorem mergeLoop_pairwise (tx : List LabParser.LabRec) :
    ∀ (seen : List Str), (LabParser.mergeLoop seen tx).Pairwise
      (fun a b => lowerS a.test_name_normalized ≠ lowerS b.test_name_normalized) := by
  induction tx with
  | nil => intro seen; simp [LabParser.mergeLoop]
  | cons a t ih =>
    intro seen
    unfold LabParser.mergeLoop
    split_ifs with hc
    · refine List.Pairwise.cons ?_ (ih _)
      intro b hb
      have hns := (mergeLoop_sound t _ b hb).2.1
      intro he
      exact hns (he ▸ List.mem_cons_self _ _)
    · exact ih _

/-- C5 (amended): the merged output is the table records (kept verbatim,
including any duplicate codes *within* the table records) followed by the
text records whose lower-cased canonical code is non-empty, absent from
every table record, and pairwise distinct — so a text record never
duplicates a table code and the table record always wins on conflict, but
table-internal duplicates are not removed. -/
theorem C5_merge_amended (table_results text_results : List LabParser.LabRec) :
    ∃ kept,
      LabParser.merge_results table_results text_results = table_results ++ kept ∧
      (∀ r ∈ kept, r ∈ text_results ∧
        lowerS r.test_name_normalized ≠ [] ∧
        ∀ q ∈ table_results,
          lowerS r.test_name_normalized ≠ lowerS q.test_name_normalized) ∧
      kept.Pairwise
        (fun a b => lowerS a.test_name_normalized ≠ lowerS b.test_name_normalized) := by
  refine ⟨_, rfl, ?_, mergeLoop_pairwise text_results _⟩
  intro r hr
  obtain ⟨h1, h2, h3⟩ := mergeLoop_sound text_results _ r hr
  refine ⟨h1, h3, ?_⟩
  intro q hq heq
  exact h2 (heq ▸ List.mem_map_of_mem (fun x => lowerS x.test_name_normalized) hq)

/-- C5 witness: the amended theorem at one table record and two text
records, one of which shares the table record's code. -/
theorem C5_witness :
    ∃ kept,
      LabParser.merge_results [hbTable1] [hbText, tshText] = [hbTable1] ++ kept ∧
      (∀ r ∈ kept, r ∈ [hbText, tshText] ∧
        lowerS r.test_name_normalized ≠ [] ∧
        ∀ q ∈ [hbTable1],
          lowerS r.test_name_normalized ≠ lowerS q.test_name_normalized) ∧
      kept.Pairwise
        (fun a b => lowerS a.test_name_normalized ≠ lowerS b.test_name_normalized) :=
  C5_merge_amended [hbTable1] [hbText, tshText]

/-- C3 counterexample: a test unknown to the catalog, with no document
range and no catalog range — no bounds are resolved by any path — comes out
of `validate_and_correct_lab_results` with the preserved/default status
`"NORMAL"`, not `"UNKNOWN"`. -/
theorem C3_counterexample :
    Gemini.validate_and_correct_lab_results [xyzqIn] none = .ok [xyzqOut] ∧
    xyzqOut.status = S "NORMAL" ∧
    Gemini.find_standard_range (S "XYZQ TEST") = none ∧
    Gemini.parse_reference_range xyzqIn.reference_range = .ok (none, none) ∧
    S "NORMAL" ≠ S "UNKNOWN" := by
  with_unfolding_all decide

/-- C3 (amended): for resolved bounds the status relation holds in both
status engines — LOW iff `v < min`, HIGH iff `v > max`, NORMAL otherwise —
and the structured parser returns UNKNOWN when no range text is available;
but `validate_and_correct_lab_results` preserves the previously assigned
status (default `"NORMAL"`) instead of UNKNOWN when no bounds resolve. -/
theorem C3_status_amended :
    (∀ (v mn mx : ℚ), mn ≤ mx →
      (Gemini.calculate_status v (some mn) (some mx) = S "LOW" ↔ v < mn) ∧
      (Gemini.calculate_status v (some mn) (some mx) = S "HIGH" ↔ v > mx) ∧
      (Gemini.calculate_status v (some mn) (some mx) = S "NORMAL" ↔ mn ≤ v ∧ v ≤ mx)) ∧
    (∀ (value ref t1 t2 : Str) (v : ℚ),
      StructuredParser.pyFloatSimple value = some v →
      StructuredParser.dashSearch (StructuredParser.dashNormalize ref) = some (t1, t2) →
      StructuredParser.valOfTok t1 ≤ StructuredParser.valOfTok t2 →
      (StructuredParser.determine_status value ref = S "LOW" ↔ v < StructuredParser.valOfTok t1) ∧
      (StructuredParser.determine_status value ref = S "HIGH" ↔ v > StructuredParser.valOfTok t2) ∧
      (StructuredParser.determine_status value ref = S "NORMAL" ↔
        StructuredParser.valOfTok t1 ≤ v ∧ v ≤ StructuredParser.valOfTok t2)) ∧
    (∀ value : Str, StructuredParser.determine_status value [] = S "UNKNOWN") := by
  refine ⟨?_, ?_, ?_⟩
  · intro v mn mx hle
    simp only [Gemini.calculate_status]
    split_ifs with h1 h2 <;>
      refine ⟨?_, ?_, ?_⟩ <;>
      first
        | exact iff_of_true (by decide) (by constructor <;> linarith)
        | exact iff_of_true (by decide) (by linarith)
        | exact iff_of_false (by decide) (by push_neg; intro; linarith)
        | exact iff_of_false (by decide) (by push_neg; linarith)
        | exact iff_of_false (by decide) (by linarith)
  · intro value ref t1 t2 v hv hd hle
    cases href : ref with
    | nil =>
      rw [href] at hd
      simp [StructuredParser.dashNormalize, StructuredParser.dashSearch] at hd
    | cons c cs =>
      rw [href] at hd
      unfold StructuredParser.determine_status
      rw [hv]
      simp only [List.isEmpty_cons, Bool.false_eq_true, if_false, hd]
      split_ifs with h1 h2 <;>
        refine ⟨?_, ?_, ?_⟩ <;>
        first
          | exact iff_of_true (by decide) (by constructor <;> linarith)
          | exact iff_of_true (by decide) (by linarith)
          | exact iff_of_false (by decide) (by push_neg; intro; linarith)
          | exact iff_of_false (by decide) (by push_neg; linarith)
          | exact iff_of_false (by decide) (by linarith)
  · intro value
    unfold StructuredParser.determine_status
    cases hv : StructuredParser.pyFloatSimple value <;> simp

/-- C3 witness: the amended theorem at fasting glucose 128 against the
document range `70 - 110` (status HIGH since 128 > 110) and at the empty
range text (UNKNOWN). -/
theorem C3_witness :
    (Gemini.calculate_status 128 (some 70) (some 110) = S "HIGH" ↔ (128 : ℚ) > 110) ∧
    (StructuredParser.determine_status (S "128") (S "70 - 110") = S "HIGH" ↔
      (128 : ℚ) > 110) ∧
    StructuredParser.determine_status (S "128") [] = S "UNKNOWN" := by
  refine ⟨(C3_status_amended.1 128 70 110 (by norm_num)).2.1, ?_, C3_status_amended.2.2 (S "128")⟩
  have h := (C3_status_amended.2.1 (S "128") (S "70 - 110") (S "70") (S "110") 128
    (by with_unfolding_all decide) (by with_unfolding_all decide)
    (by with_unfolding_all decide)).2.1
  have hv : StructuredParser.valOfTok (S "110") = (110 : ℚ) := by
    with_unfolding_all decide
  rw [hv] at h
  exact h

/-- C1 counterexample: `PUS CELLS`, value 2, with the parseable
document-supplied range `0 - 10` (which would give NORMAL) and a female
patient: the sex-specific catalog override runs *before* the document-range
branch, so the status is computed from the catalog bounds `(3, 7)` and
comes out LOW — the document range does not take priority here. -/
theorem C1_counterexample :
    Gemini.validate_and_correct_lab_results [pusCellsIn] (some ⟨S "female", []⟩) =
      .ok [pusCellsOut] ∧
    Gemini.parse_reference_range pusCellsIn.reference_range = .ok (some 0, some 10) ∧
    Gemini.parse_numeric_value pusCellsIn.value = some 2 ∧
    Gemini.calculate_status 2 (some 0) (some 10) = S "NORMAL" ∧
    pusCellsOut.status = S "LOW" ∧
    S "LOW" ≠ S "NORMAL" := by
  with_unfolding_all decide

set_option maxHeartbeats 1600000 in
/-- C1 (amended): for a record that survives the skip filters and is not
a culture/sensitivity test, whose catalog entry (if any) is neither
force-unitless nor carries an applicable sex override, a document-supplied
range text parsing into `(min, max)` together with a parseable numeric
value makes `validate_and_correct_lab_results` compute the status directly
from that document range, which then takes priority over any catalog
fallback; the force-unitless, sex-override and sensitivity special
branches, however, run first and bypass the document range. -/
theorem C1_document_range_priority (patient_sex : Option Str) (t : Gemini.TestIn)
    (emn emx v : ℚ)
    (h1 : ((stripS t.test_name).isEmpty ||
        upperS (stripS t.test_name) ∈
          [S "MORE THAN", S "LESS THAN", S "NIL", S "ABSENT"]) = false)
    (h2 : (upperS (stripS t.test_name) ∈ Gemini.suspicious_zero_tests &&
        Gemini.parse_numeric_value t.value == some 0) = false)
    (h3 : ¬ (Gemini.normalize_test_name (stripS t.test_name)).length < 2)
    (h4 : Gemini.isSensitivityFlag (lowerS (t.sect.getD [])) (stripS (upperS t.value))
        (upperS (stripS t.test_name)) = false)
    (h5 : Gemini.unitlessSel
        (Gemini.find_standard_range (Gemini.normalize_test_name (stripS t.test_name))) = none)
    (h6 : Gemini.genderSel
        (Gemini.find_standard_range (Gemini.normalize_test_name (stripS t.test_name)))
        patient_sex = none)
    (h7 : Gemini.parse_reference_range t.reference_range = .ok (some emn, some emx))
    (h8 : Gemini.parse_numeric_value t.value = some v) :
    ∃ out, Gemini.validateOne patient_sex t = .ok (some out) ∧
      out.status = Gemini.calculate_status v (some emn) (some emx) ∧
      out.reference_range = t.reference_range := by
  have h3b : ((Gemini.normalize_test_name (stripS t.test_name)).length < 2) = False :=
    eq_false h3
  rw [Gemini.validateOne, h1]
  simp only [Bool.false_eq_true, if_false]
  rw [h2]
  simp only [Bool.false_eq_true, if_false]
  rw [if_neg h3]
  rw [h4]
  simp only [Bool.false_eq_true, if_false]
  rw [h5]
  rw [h6]
  rw [Gemini.rangeStage.eq_def]
  rw [show (Gemini.correctedBase t (Gemini.normalize_test_name (stripS t.test_name))
      (Gemini.parse_numeric_value t.value)).reference_range = t.reference_range from rfl]
  rw [h7, h8]
  exact ⟨_, rfl, rfl, rfl⟩

set_option maxHeartbeats 1600000 in
set_option maxRecDepth 2000 in
/-- C1 witness: the amended theorem at fasting blood sugar 128 with
document range `70 - 110`. -/
theorem C1_witness :
    ∃ out, Gemini.validateOne none glucoseIn = .ok (some out) ∧
      out.status = Gemini.calculate_status 128 (some 70) (some 110) ∧
      out.reference_range = glucoseIn.reference_range :=
  C1_document_range_priority none glucoseIn 70 110 128
    (by with_unfolding_all decide) (by with_unfolding_all decide)
    (by with_unfolding_all decide) (by with_unfolding_all decide)
    (by with_unfolding_all decide) (by with_unfolding_all decide)
    (by with_unfolding_all decide) (by with_unfolding_all decide)

set_option maxHeartbeats 1600000 in
/-- C8: for a record that reaches the catalog-fallback branch (its document
range did not fully parse, or it has no numeric value) with an observed
unit indicating the lakhs scale and a catalog minimum above 100, the
catalog range is skipped and the previously assigned status (default
NORMAL), the reference-range text and the unit are all preserved; only the
section is taken from the catalog. -/
theorem C8_lakhs_unit_guard (patient_sex : Option Str) (t : Gemini.TestIn)
    (e : Gemini.StdEntry) (pmn pmx : Option ℚ)
    (h1 : ((stripS t.test_name).isEmpty ||
        upperS (stripS t.test_name) ∈
          [S "MORE THAN", S "LESS THAN", S "NIL", S "ABSENT"]) = false)
    (h2 : (upperS (stripS t.test_name) ∈ Gemini.suspicious_zero_tests &&
        Gemini.parse_numeric_value t.value == some 0) = false)
    (h3 : ¬ (Gemini.normalize_test_name (stripS t.test_name)).length < 2)
    (h4 : Gemini.isSensitivityFlag (lowerS (t.sect.getD [])) (stripS (upperS t.value))
        (upperS (stripS t.test_name)) = false)
    (h5 : Gemini.unitlessSel
        (Gemini.find_standard_range (Gemini.normalize_test_name (stripS t.test_name))) = none)
    (h6 : Gemini.genderSel
        (Gemini.find_standard_range (Gemini.normalize_test_name (stripS t.test_name)))
        patient_sex = none)
    (h7 : Gemini.parse_reference_range t.reference_range = .ok (pmn, pmx))
    (h7b : ¬ (pmn.isSome = true ∧ pmx.isSome = true ∧
        (Gemini.parse_numeric_value t.value).isSome = true))
    (h8 : Gemini.find_standard_range (Gemini.normalize_test_name (stripS t.test_name)) =
        some e)
    (h9 : Gemini.is_lakhs_unit t.unit = true)
    (h10 : (100 : ℚ) < e.min) :
    ∃ out, Gemini.validateOne patient_sex t = .ok (some out) ∧
      out.status = t.status.getD (S "NORMAL") ∧
      out.reference_range = t.reference_range ∧
      out.unit = t.unit ∧
      out.sect = e.sect := by
  have h3b : ((Gemini.normalize_test_name (stripS t.test_name)).length < 2) = False :=
    eq_false h3
  have hue : t.unit.isEmpty = false := by
    cases hb : t.unit.isEmpty
    · rfl
    · unfold Gemini.is_lakhs_unit at h9
      rw [if_pos hb] at h9
      exact absurd h9 (by simp)
  have hskip : Gemini.should_skip_standard_range
      (Gemini.normalize_test_name (stripS t.test_name)) t.unit (some e) = true := by
    simp only [Gemini.should_skip_standard_range, hue, h9, Bool.false_eq_true, if_false,
      if_true, decide_eq_true_eq]
    exact h10
  rw [Gemini.validateOne, h1]
  simp only [Bool.false_eq_true, if_false]
  rw [h2]
  simp only [Bool.false_eq_true, if_false]
  rw [if_neg h3]
  rw [h4]
  simp only [Bool.false_eq_true, if_false]
  rw [h5]
  rw [h6]
  rw [Gemini.rangeStage.eq_def]
  rw [show (Gemini.correctedBase t (Gemini.normalize_test_name (stripS t.test_name))
      (Gemini.parse_numeric_value t.value)).reference_range = t.reference_range from rfl]
  rw [h7]
  have hskipP : ∀ nv : Option ℚ, Gemini.should_skip_standard_range
      (Gemini.normalize_test_name (stripS t.test_name))
      (Gemini.correctedBase t (Gemini.normalize_test_name (stripS t.test_name)) nv).unit
      (some e) = true := fun _ => hskip
  rw [h8]
  rcases pmn with _ | x
  · refine ⟨_, rfl, ?_, ?_, ?_, ?_⟩ <;>
      rw [Gemini.fallbackOut.eq_def, if_pos (hskipP _)] <;> rfl
  · rcases pmx with _ | y
    · refine ⟨_, rfl, ?_, ?_, ?_, ?_⟩ <;>
        rw [Gemini.fallbackOut.eq_def, if_pos (hskipP _)] <;> rfl
    · rcases hnv : Gemini.parse_numeric_value t.value with _ | w
      · refine ⟨_, rfl, ?_, ?_, ?_, ?_⟩ <;>
          rw [Gemini.fallbackOut.eq_def, if_pos (hskipP _)] <;> rfl
      · exact absurd ⟨rfl, rfl, by rw [hnv]; rfl⟩ h7b

set_option maxHeartbeats 1600000 in
set_option maxRecDepth 2000 in
/-- C8 witness: the theorem at a platelet count of 3.5 lakhs/cumm against
the catalog entry in absolute counts (min 150000): the LOW status assigned
upstream is preserved. -/
theorem C8_witness :
    ∃ out, Gemini.validateOne none plateletIn = .ok (some out) ∧
      out.status = plateletIn.status.getD (S "NORMAL") ∧
      out.reference_range = plateletIn.reference_range ∧
      out.unit = plateletIn.unit ∧
      out.sect = plateletEntry.sect :=
  C8_lakhs_unit_guard none plateletIn plateletEntry none none
    (by first | decide | with_unfolding_all decide)
    (by first | decide | with_unfolding_all decide)
    (by first | decide | with_unfolding_all decide)
    (by first | decide | with_unfolding_all decide)
    (by first | decide | with_unfolding_all decide)
    (by first | decide | with_unfolding_all decide)
    (by first | decide | with_unfolding_all decide)
    (by first | decide | with_unfolding_all decide)
    (by first | decide | with_unfolding_all decide)
    (by first | decide | with_unfolding_all decide)
    (by first | decide | with_unfolding_all decide)

theorem generate_alert_none_of_no_numeric (r : RiskAnalyzer.ResultIn)
    (h : r.numeric_value = none) : RiskAnalyzer.generate_alert r = none := by
  unfold RiskAnalyzer.generate_alert
  rw [h]

theorem analyzeStep_foldl (rs : List RiskAnalyzer.ResultIn) :
    ∀ acc, rs.foldl RiskAnalyzer.analyzeStep acc =
      (acc.1 ++ rs.filterMap RiskAnalyzer.generate_alert,
       acc.2.1 ++ rs.filter
         (fun r => ((RiskAnalyzer.generate_alert r).map isAbnSev).getD false),
       acc.2.2 ++ rs.filter (fun r => ((RiskAnalyzer.generate_alert r).map
         (fun a => a.severity == S "CRITICAL")).getD false)) := by
  induction rs with
  | nil => intro acc; simp
  | cons r t ih =>
    intro acc
    rw [List.foldl_cons, ih]
    rcases hnv : r.numeric_value with _ | v
    · have hg : RiskAnalyzer.generate_alert r = none :=
        generate_alert_none_of_no_numeric r hnv
      simp [RiskAnalyzer.analyzeStep, hnv, hg]
    · rcases hg : RiskAnalyzer.generate_alert r with _ | a
      · simp [RiskAnalyzer.analyzeStep, hnv, hg]
      · rcases hc : (a.severity == S "CRITICAL") <;>
          rcases hh : (a.severity == S "HIGH") <;>
            rcases hm : (a.severity == S "MODERATE") <;>
              simp [RiskAnalyzer.analyzeStep, hnv, hg, isAbnSev, hc, hh, hm,
                List.append_assoc]

theorem filter_length_countP (p : RiskAnalyzer.Alert → Bool)
    (rs : List RiskAnalyzer.ResultIn) :
    (rs.filter (fun r => ((RiskAnalyzer.generate_alert r).map p).getD false)).length =
      (rs.filterMap RiskAnalyzer.generate_alert).countP p := by
  induction rs with
  | nil => simp
  | cons r t ih =>
    rcases hg : RiskAnalyzer.generate_alert r with _ | a
    · simp [hg, ih]
    · rcases hp : p a <;> simp [hg, hp, ih, List.countP_cons]

/-- C10: in the dictionary returned by `analyze`, `abnormal_count` counts
exactly the generated alerts of severity CRITICAL, HIGH or MODERATE (a LOW
alert is in the alerts list but counts in neither tally), `critical_count`
counts exactly the CRITICAL alerts, and every generated alert of every
result appears in the alerts list. -/
theorem C10_analyze_counts (rs : List RiskAnalyzer.ResultIn) :
    (RiskAnalyzer.analyze rs).abnormal_count =
      (RiskAnalyzer.analyze rs).alerts.countP isAbnSev ∧
    (RiskAnalyzer.analyze rs).critical_count =
      (RiskAnalyzer.analyze rs).alerts.countP (fun a => a.severity == S "CRITICAL") ∧
    (∀ r ∈ rs, ∀ a, RiskAnalyzer.generate_alert r = some a →
      a ∈ (RiskAnalyzer.analyze rs).alerts) := by
  have hloop := analyzeStep_foldl rs ([], [], [])
  have halerts : (RiskAnalyzer.analyze rs).alerts =
      (rs.filterMap RiskAnalyzer.generate_alert).mergeSort
        (fun a b =>
          RiskAnalyzer.severityRank a.severity ≤ RiskAnalyzer.severityRank b.severity) := by
    simp [RiskAnalyzer.analyze, RiskAnalyzer.analyzeLoop, hloop]
  have habn : (RiskAnalyzer.analyze rs).abnormal_count =
      (rs.filter
        (fun r => ((RiskAnalyzer.generate_alert r).map isAbnSev).getD false)).length := by
    simp [RiskAnalyzer.analyze, RiskAnalyzer.analyzeLoop, hloop]
  have hcrit : (RiskAnalyzer.analyze rs).critical_count =
      (rs.filter (fun r => ((RiskAnalyzer.generate_alert r).map
        (fun a => a.severity == S "CRITICAL")).getD false)).length := by
    simp [RiskAnalyzer.analyze, RiskAnalyzer.analyzeLoop, hloop]
  have hperm := List.mergeSort_perm (rs.filterMap RiskAnalyzer.generate_alert)
    (fun a b =>
      RiskAnalyzer.severityRank a.severity ≤ RiskAnalyzer.severityRank b.severity)
  refine ⟨?_, ?_, ?_⟩
  · rw [habn, halerts, filter_length_countP isAbnSev rs]
    exact (hperm.countP_eq _).symm
  · rw [hcrit, halerts, filter_length_countP _ rs]
    exact (hperm.countP_eq _).symm
  · intro r hr a hg
    rw [halerts]
    exact hperm.mem_iff.mpr (List.mem_filterMap.mpr ⟨r, hr, hg⟩)

/-- C10 witness: the theorem at a single critically elevated fasting
glucose; its CRITICAL alert is in the alerts list. -/
theorem C10_witness : glucoseAlert ∈ (RiskAnalyzer.analyze [glucoseResultIn]).alerts :=
  (C10_analyze_counts [glucoseResultIn]).2.2 glucoseResultIn (List.mem_singleton.mpr rfl)
    glucoseAlert (by first | decide | with_unfolding_all decide)

theorem dictInsert_lookup (d : List (Str × Str)) (k v t : Str) :
    (((RiskAnalyzer.dictInsert d k v).lookup t).isSome = true) ↔
      (t = k ∨ ((d.lookup t).isSome = true)) := by
  induction d with
  | nil =>
    simp [RiskAnalyzer.dictInsert, List.lookup]
    by_cases ht : (t == k) = true
    · simp [ht, beq_iff_eq.mp ht]
    · simp [ht]
      intro he
      exact absurd (beq_iff_eq.mpr he) ht
  | cons kv rest ih =>
    rcases kv with ⟨k0, v0⟩
    unfold RiskAnalyzer.dictInsert
    by_cases h0 : (k0 == k) = true
    · rw [if_pos h0]
      have hk : k0 = k := beq_iff_eq.mp h0
      subst hk
      by_cases ht : (t == k0) = true
      · simp [List.lookup, ht, beq_iff_eq.mp ht]
      · simp [List.lookup, ht]
        intro he
        exact absurd (beq_iff_eq.mpr he) ht
    · rw [if_neg h0]
      by_cases ht : (t == k0) = true
      · simp [List.lookup, ht]
      · simp [List.lookup, ht, ih]

theorem abnFold_lookup (rs : List RiskAnalyzer.ResultIn) :
    ∀ (d : List (Str × Str)) (t : Str),
      (((rs.foldl (fun d r =>
          if upperS r.status == S "HIGH" || upperS r.status == S "LOW" then
            RiskAnalyzer.dictInsert d r.test_name_normalized (upperS r.status)
          else d) d).lookup t).isSome = true) ↔
        (((d.lookup t).isSome = true) ∨
          ∃ r ∈ rs, r.test_name_normalized = t ∧
            (upperS r.status = S "HIGH" ∨ upperS r.status = S "LOW")) := by
  induction rs with
  | nil => intro d t; simp
  | cons r rest ih =>
    intro d t
    rw [List.foldl_cons]
    by_cases hs : (upperS r.status == S "HIGH" || upperS r.status == S "LOW") = true
    · rw [if_pos hs]
      rw [ih]
      rw [dictInsert_lookup]
      have hsp : upperS r.status = S "HIGH" ∨ upperS r.status = S "LOW" := by
        rcases Bool.or_eq_true_iff.mp hs with h | h
        · exact Or.inl (beq_iff_eq.mp h)
        · exact Or.inr (beq_iff_eq.mp h)
      constructor
      · rintro ((rfl | hd) | ⟨r', hr', he, hst⟩)
        · exact Or.inr ⟨r, List.mem_cons_self _ _, rfl, hsp⟩
        · exact Or.inl hd
        · exact Or.inr ⟨r', List.mem_cons_of_mem _ hr', he, hst⟩
      · rintro (hd | ⟨r', hr', he, hst⟩)
        · exact Or.inl (Or.inr hd)
        · rcases List.mem_cons.mp hr' with rfl | hr''
          · exact Or.inl (Or.inl he.symm)
          · exact Or.inr ⟨r', hr'', he, hst⟩
    · rw [if_neg hs]
      rw [ih]
      constructor
      · rintro (hd | ⟨r', hr', he, hst⟩)
        · exact Or.inl hd
        · exact Or.inr ⟨r', List.mem_cons_of_mem _ hr', he, hst⟩
      · rintro (hd | ⟨r', hr', he, hst⟩)
        · exact Or.inl hd
        · rcases List.mem_cons.mp hr' with rfl | hr''
          · exfalso
            apply hs
            rcases hst with h | h
            · exact Bool.or_eq_true_iff.mpr (Or.inl (beq_iff_eq.mpr h))
            · exact Bool.or_eq_true_iff.mpr (Or.inr (beq_iff_eq.mpr h))
          · exact Or.inr ⟨r', hr'', he, hst⟩

theorem abnormalTests_lookup (rs : List RiskAnalyzer.ResultIn) (t : Str) :
    ((((RiskAnalyzer.abnormalTests rs).lookup t).isSome) = true) ↔
      ∃ r ∈ rs, r.test_name_normalized = t ∧
        (upperS r.status = S "HIGH" ∨ upperS r.status = S "LOW") := by
  unfold RiskAnalyzer.abnormalTests
  rw [abnFold_lookup rs [] t]
  simp

theorem condMatching_length (abn : List (Str × Str)) (codes : List Str) :
    (RiskAnalyzer.condMatching abn codes).length =
      (codes.filter (fun t => (abn.lookup t).isSome)).length := by
  induction codes with
  | nil => rfl
  | cons c cs ih =>
    unfold RiskAnalyzer.condMatching at ih ⊢
    rcases h : abn.lookup c with _ | st <;> simp [h, ih, List.filter_cons]

theorem condMatching_count (rs : List RiskAnalyzer.ResultIn) (codes : List Str) :
    (RiskAnalyzer.condMatching (RiskAnalyzer.abnormalTests rs) codes).length =
      abnMatchCount rs codes := by
  rw [condMatching_length]
  unfold abnMatchCount
  congr 1
  apply List.filter_congr
  intro t _
  rw [Bool.eq_iff_iff]
  rw [abnormalTests_lookup]
  simp only [List.any_eq_true, Bool.and_eq_true, Bool.or_eq_true, beq_iff_eq]

theorem condStep_foldl (abn : List (Str × Str)) :
    ∀ (cps : List (Str × List Str)) (acc : List RiskAnalyzer.Cond),
      cps.foldl (RiskAnalyzer.condStep abn) acc =
        acc ++ cps.filterMap (RiskAnalyzer.condOf abn) := by
  intro cps
  induction cps with
  | nil => intro acc; simp
  | cons cp t ih =>
    intro acc
    rw [List.foldl_cons, ih]
    unfold RiskAnalyzer.condStep
    rcases h : RiskAnalyzer.condOf abn cp with _ | c <;>
      simp [h, List.append_assoc]

theorem titleName_inj_on_patterns :
    ∀ cp ∈ RiskAnalyzer.condition_patterns, ∀ cp' ∈ RiskAnalyzer.condition_patterns,
      RiskAnalyzer.titleName cp.1 = RiskAnalyzer.titleName cp'.1 → cp = cp' := by
  decide

theorem abnMatchCount_zero_of_empty (rs : List RiskAnalyzer.ResultIn)
    (h : (RiskAnalyzer.abnormalTests rs).isEmpty = true) (codes : List Str) :
    abnMatchCount rs codes = 0 := by
  rw [← condMatching_count]
  rw [condMatching_length]
  have hnil : RiskAnalyzer.abnormalTests rs = [] := List.isEmpty_iff.mp h
  simp [hnil, List.lookup]

theorem detect_conditions_mem (rs : List RiskAnalyzer.ResultIn) (c : RiskAnalyzer.Cond) :
    c ∈ RiskAnalyzer.detect_conditions rs ↔
      ∃ cp ∈ RiskAnalyzer.condition_patterns,
        RiskAnalyzer.condOf (RiskAnalyzer.abnormalTests rs) cp = some c := by
  unfold RiskAnalyzer.detect_conditions
  by_cases h : (RiskAnalyzer.abnormalTests rs).isEmpty
  · rw [if_pos h]
    simp only [List.not_mem_nil, false_iff]
    rintro ⟨cp, hcp, hsome⟩
    have hnil : RiskAnalyzer.abnormalTests rs = [] := List.isEmpty_iff.mp h
    unfold RiskAnalyzer.condOf at hsome
    rw [hnil] at hsome
    have hm : RiskAnalyzer.condMatching [] cp.2 = [] := by
      unfold RiskAnalyzer.condMatching
      simp [List.lookup]
    rw [hm] at hsome
    simp at hsome
  · rw [if_neg h]
    rw [(List.mergeSort_perm _ _).mem_iff]
    rw [condStep_foldl]
    rw [List.nil_append]
    exact List.mem_filterMap

/-- **C6.** `_detect_conditions`: a condition-signature name appears in the
output iff at least two of the signature's member codes carry status HIGH or
LOW; every reported condition's confidence is `min(matches/len, 1)` (hence in
`[0, 1]`); and the output is sorted by confidence in descending order. -/
theorem C6_condition_signatures (rs : List RiskAnalyzer.ResultIn) :
    (∀ cp ∈ RiskAnalyzer.condition_patterns,
        ((∃ c ∈ RiskAnalyzer.detect_conditions rs,
            c.condition = RiskAnalyzer.titleName cp.1) ↔ 2 ≤ abnMatchCount rs cp.2)) ∧
    (∀ c ∈ RiskAnalyzer.detect_conditions rs,
        ∃ cp ∈ RiskAnalyzer.condition_patterns,
          c.condition = RiskAnalyzer.titleName cp.1 ∧
          c.confidence = min ((abnMatchCount rs cp.2 : ℚ) / (cp.2.length : ℚ)) 1 ∧
          0 ≤ c.confidence ∧ c.confidence ≤ 1) ∧
    (RiskAnalyzer.detect_conditions rs).Pairwise
      (fun a b => b.confidence ≤ a.confidence) := by
  refine ⟨?_, ?_, ?_⟩
  · intro cp hcp
    constructor
    · rintro ⟨c, hc, hname⟩
      rcases (detect_conditions_mem rs c).mp hc with ⟨cp', hcp', hsome⟩
      unfold RiskAnalyzer.condOf at hsome
      split_ifs at hsome with hlen
      · have hc' := Option.some.inj hsome
        subst hc'
        have heq : RiskAnalyzer.titleName cp'.1 = RiskAnalyzer.titleName cp.1 := hname
        have hcpeq := titleName_inj_on_patterns cp' hcp' cp hcp heq
        rw [← hcpeq, ← condMatching_count]
        exact hlen
    · intro hcnt
      have hlen :
          2 ≤ (RiskAnalyzer.condMatching (RiskAnalyzer.abnormalTests rs) cp.2).length := by
        rw [condMatching_count]
        exact hcnt
      refine ⟨⟨RiskAnalyzer.titleName cp.1,
        min (((RiskAnalyzer.condMatching (RiskAnalyzer.abnormalTests rs) cp.2).length : ℚ) /
          (cp.2.length : ℚ)) 1,
        RiskAnalyzer.condMatching (RiskAnalyzer.abnormalTests rs) cp.2⟩, ?_, rfl⟩
      apply (detect_conditions_mem rs _).mpr
      refine ⟨cp, hcp, ?_⟩
      unfold RiskAnalyzer.condOf
      rw [if_pos hlen]
  · intro c hc
    rcases (detect_conditions_mem rs c).mp hc with ⟨cp', hcp', hsome⟩
    unfold RiskAnalyzer.condOf at hsome
    split_ifs at hsome with hlen
    · have hc' := Option.some.inj hsome
      subst hc'
      refine ⟨cp', hcp', rfl, ?_, ?_, ?_⟩
      · show min (((RiskAnalyzer.condMatching (RiskAnalyzer.abnormalTests rs) cp'.2).length :
            ℚ) / (cp'.2.length : ℚ)) 1 =
          min ((abnMatchCount rs cp'.2 : ℚ) / (cp'.2.length : ℚ)) 1
        rw [condMatching_count]
      · exact le_min (div_nonneg (Nat.cast_nonneg _) (Nat.cast_nonneg _)) (by norm_num)
      · exact min_le_right _ _
  · unfold RiskAnalyzer.detect_conditions
    by_cases h : (RiskAnalyzer.abnormalTests rs).isEmpty
    · rw [if_pos h]
      exact List.Pairwise.nil
    · rw [if_neg h]
      refine List.Pairwise.imp (fun hab => of_decide_eq_true hab) ?_
      refine List.sorted_mergeSort ?_ ?_ _
      · intro a b c hab hbc
        exact decide_eq_true (le_trans (of_decide_eq_true hbc) (of_decide_eq_true hab))
      · intro a b
        simp only [Bool.or_eq_true, decide_eq_true_eq]
        exact le_total b.confidence a.confidence

theorem C6_witness :
    anemiaPattern ∈ RiskAnalyzer.condition_patterns ∧
    2 ≤ abnMatchCount c6Results anemiaPattern.2 ∧
    ∃ c ∈ RiskAnalyzer.detect_conditions c6Results,
      c.condition = RiskAnalyzer.titleName anemiaPattern.1 :=
  ⟨by decide, by decide,
    ((C6_condition_signatures c6Results).1 anemiaPattern (by decide)).mpr (by decide)⟩
